import Mathlib

/-!
Verification of the AEM medical-document generation pipeline.

A shallow embedding, in Lean 4, of the core of the `mvp` application:
the JSON data model, the JSON-Schema registry (`mvp/app/schemas.py`),
the plausibility rules engine (`mvp/app/validators.py`), the two
normalization passes (`mvp/app/normalizer.py`, `mvp/app/utils.py`), the
deterministic fallback generator and LLM orchestration
(`mvp/app/llm.py`), and the pipeline entry point
(`mvp/app/pipeline.py`).

Python dictionaries with string keys are modelled as association lists
in insertion order; Python exceptions are modelled as `Option`/`Except`
error results; Python numbers are modelled as `Int` (int) and `Rat`
(float).  Each definition keeps, as far as Lean allows, the name and
the structure of the source function it embeds.
-/

set_option maxRecDepth 10000

namespace AEM

/-- The universe of Python/JSON values flowing through the pipeline:
`None`, `bool`, `int`, `float` (as a rational), `str`, `list`, `dict`
(insertion-ordered association list with string keys). -/
inductive JVal where
  | null : JVal
  | bool (b : Bool) : JVal
  | int (n : Int) : JVal
  | float (q : Rat) : JVal
  | str (s : String) : JVal
  | arr (xs : List JVal) : JVal
  | obj (fs : List (String × JVal)) : JVal

/-- A Python dictionary with string keys, in insertion order. -/
abbrev JDict := List (String × JVal)

/-- First binding of `k` in a dictionary (Python dict lookup; the
embedding maintains key uniqueness, matching Python dicts). -/
def pyLookup (d : JDict) (k : String) : Option JVal :=
  match d with
  | [] => none
  | (k', v) :: rest => if k' = k then some v else pyLookup rest k

/-- `d.get(k)`: dictionary lookup with `None` default. -/
def dictGet (d : JDict) (k : String) : JVal :=
  (pyLookup d k).getD .null

/-- `d.get(k, default)`. -/
def dictGetD (d : JDict) (k : String) (default : JVal) : JVal :=
  (pyLookup d k).getD default

/-- `d[k] = v`: in-place update if the key exists (keeping its
position, as Python dicts do), append otherwise. -/
def dictSet (d : JDict) (k : String) (v : JVal) : JDict :=
  match d with
  | [] => [(k, v)]
  | (k', v') :: rest =>
      if k' = k then (k, v) :: rest else (k', v') :: dictSet rest k v

/-- Python truthiness: `None`, `False`, `0`, `0.0`, `""`, `[]`, `{}`
are falsy, everything else truthy. -/
def truthy : JVal → Bool
  | .null => false
  | .bool b => b
  | .int n => n ≠ 0
  | .float q => q ≠ 0
  | .str s => s ≠ ""
  | .arr xs => !xs.isEmpty
  | .obj fs => !fs.isEmpty

/-- Python's short-circuiting `a or b` on values. -/
def pyOr (a b : JVal) : JVal := if truthy a then a else b

/-- `(d.get(k) or {})` followed by use as a dictionary: yields the
field's entries, `{}`'s entries when the field is falsy, and a Python
`AttributeError` (here `none`) when the field holds a truthy
non-dictionary. -/
def getDictOr (d : JDict) (k : String) : Option JDict :=
  match pyOr (dictGet d k) (.obj []) with
  | .obj fs => some fs
  | _ => none

/-- Python exception classes raised by the embedded code.
`unsupportedType` is the `ValueError("Tipo de documento não
suportado: ...")` raised by `processar`; `intCastError` is the
`ValueError` raised by a failing `int(...)` cast; `keyError` is the
`KeyError` raised by `get_schema`; `validationError` is
`jsonschema.ValidationError`; `attributeError` and `typeError` are the
corresponding Python classes (e.g. `.get`/`.upper` on a non-dict /
non-str, iteration over a non-iterable). -/
inductive PErr where
  | unsupportedType (tipo : String) : PErr
  | intCastError : PErr
  | keyError (msg : String) : PErr
  | validationError : PErr
  | attributeError : PErr
  | typeError : PErr
  deriving DecidableEq, Repr

/-- `str.upper()` (the document-type strings are ASCII). -/
def pyUpper (s : String) : String := String.mk (s.toList.map Char.toUpper)

/-- `str.lower()` (the inputs exercised here are ASCII). -/
def pyLower (s : String) : String := String.mk (s.toList.map Char.toLower)

/-- Python `str.isspace` characters relevant to `strip()`/`split()`. -/
def pyIsSpace (c : Char) : Bool :=
  c = ' ' || c = '\t' || c = '\n' || c = '\r' || c = '\x0b' || c = '\x0c'

/-- Strip characters satisfying `p` from both ends of a string
(`str.strip` / `str.strip(chars)`). -/
def stripChars (p : Char → Bool) (s : String) : String :=
  let l := s.toList.dropWhile p
  String.mk (l.reverse.dropWhile p).reverse

/-- `str.strip()`: strip whitespace from both ends. -/
def pyStrip (s : String) : String := stripChars pyIsSpace s

/-- `"".join(c for c in s if c.isdigit())` — `_digits_only` in
`mvp/app/validators.py`. -/
def digitsOnly (s : String) : String := String.mk (s.toList.filter Char.isDigit)

/-- First index (in characters) at which `sub` occurs in `s`
(`str.find`), if any. -/
def pyFindAux (sub : List Char) : List Char → Nat → Option Nat
  | [], i => if sub = [] then some i else none
  | c :: rest, i =>
      if sub.isPrefixOf (c :: rest) then some i else pyFindAux sub rest (i + 1)

/-- `s.find(sub)` as an `Option` (Python returns `-1` on absence). -/
def pyFind (s sub : String) : Option Nat := pyFindAux sub.toList s.toList 0

/-- `sub in s` for strings. -/
def pyContains (s sub : String) : Bool := (pyFind s sub).isSome

/-- Last index at which `sub` occurs (`str.rfind`), if any. -/
def pyRFindAux (sub : List Char) : List Char → Nat → Option Nat → Option Nat
  | [], _, acc => acc
  | c :: rest, i, acc =>
      pyRFindAux sub rest (i + 1)
        (if sub.isPrefixOf (c :: rest) then some i else acc)

/-- `s.rfind(sub)` as an `Option`. -/
def pyRFind (s sub : String) : Option Nat := pyRFindAux sub.toList s.toList 0 none

/-- Character-index slice `s[a:b]` (Python, with `0 ≤ a ≤ b`). -/
def pySlice (s : String) (a b : Nat) : String :=
  String.mk ((s.toList.take b).drop a)

/-- `s.split(sep, maxsplit=1)` when `sep` occurs: the text before and
after the first occurrence. -/
def pySplit1 (s sep : String) : String × String :=
  match pyFind s sep with
  | none => (s, "")
  | some i => (pySlice s 0 i, String.mk (s.toList.drop (i + sep.length)))

/-- `s.replace(pat, rep)` for a nonempty pattern: replace every
(left-to-right, non-overlapping) occurrence.  Fuel-indexed by the
string length; an empty pattern degrades to the identity (the embedded
code only replaces the nonempty literals `"TEXTO:"` and `"\r"`). -/
def pyReplaceAux (pat rep : List Char) : Nat → List Char → List Char
  | 0, cs => cs
  | _, [] => []
  | fuel + 1, c :: rest =>
      if pat.isPrefixOf (c :: rest) ∧ pat ≠ [] then
        rep ++ pyReplaceAux pat rep fuel ((c :: rest).drop pat.length)
      else c :: pyReplaceAux pat rep fuel rest

def pyReplace (s pat rep : String) : String :=
  String.mk (pyReplaceAux pat.toList rep.toList s.toList.length s.toList)

/-- Truncating integer cast of a rational (Python `int()` on floats
rounds toward zero). -/
def ratTrunc (q : Rat) : Int := if q ≥ 0 then ⌊q⌋ else ⌈q⌉

/-- Parse a string as Python `int(...)` does: optional surrounding
whitespace, optional sign, nonempty digit run. -/
def parseIntString (s : String) : Option Int :=
  let t := pyStrip s
  let chars := t.toList
  let (sign, digits) :=
    match chars with
    | '-' :: rest => ((-1 : Int), rest)
    | '+' :: rest => ((1 : Int), rest)
    | rest => ((1 : Int), rest)
  if digits ≠ [] ∧ digits.all Char.isDigit then
    some (sign * (digits.foldl (fun acc c => acc * 10 + (c.toNat - '0'.toNat)) 0 : Nat))
  else none

/-- Python `int(v)`: identity on ints, truncation on floats, `1/0` on
bools, decimal parse on strings, `ValueError`/`TypeError` (here
`none`) otherwise. -/
def pyInt : JVal → Option Int
  | .int n => some n
  | .float q => some (ratTrunc q)
  | .bool b => some (if b then 1 else 0)
  | .str s => parseIntString s
  | _ => none

/-- Parse a string as Python `float(...)` does, restricted to plain
decimal literals `[+-]digits[.digits]` (the only shapes the verified
code paths meet). -/
def parseFloatString (s : String) : Option Rat :=
  let t := pyStrip s
  let chars := t.toList
  let (sign, body) :=
    match chars with
    | '-' :: rest => ((-1 : Rat), rest)
    | '+' :: rest => ((1 : Rat), rest)
    | rest => ((1 : Rat), rest)
  let intPart := body.takeWhile Char.isDigit
  let rest := body.drop intPart.length
  match rest with
  | [] =>
      if intPart ≠ [] then
        some (sign * ((intPart.foldl (fun acc c => acc * 10 + (c.toNat - '0'.toNat)) 0 : Nat) : Rat))
      else none
  | '.' :: frac =>
      if (intPart ≠ [] ∨ frac ≠ []) ∧ frac.all Char.isDigit then
        let num : Nat := (intPart ++ frac).foldl (fun acc c => acc * 10 + (c.toNat - '0'.toNat)) 0
        some (sign * (num : Rat) / ((10 : Rat) ^ frac.length))
      else none
  | _ => none

/-- Python `float(v)`. -/
def pyFloat : JVal → Option Rat
  | .int n => some (n : Rat)
  | .float q => some q
  | .bool b => some (if b then 1 else 0)
  | .str s => parseFloatString s
  | _ => none

/-- Rendering of a float by `str`/`repr`.  Integral floats render as
`n.0` exactly as Python does; non-integral rationals are rendered as
fractions, an approximation of Python's shortest-decimal repr that no
verified code path ever observes (the embedded prose templates only
interpolate strings and ints in the claims below). -/
def pyFloatRepr (q : Rat) : String :=
  if q.den = 1 then toString q.num ++ ".0" else toString q

mutual
/-- Python `str(v)` / f-string interpolation. -/
def pyStr : JVal → String
  | .null => "None"
  | .bool b => if b then "True" else "False"
  | .int n => toString n
  | .float q => pyFloatRepr q
  | .str s => s
  | .arr xs => "[" ++ String.intercalate ", " (pyReprList xs) ++ "]"
  | .obj fs => "\x7b" ++ String.intercalate ", " (pyReprFields fs) ++ "\x7d"

/-- Python `repr(v)` (string elements quoted), as used for container
elements by `str` on lists and dicts. -/
def pyRepr : JVal → String
  | .null => "None"
  | .bool b => if b then "True" else "False"
  | .int n => toString n
  | .float q => pyFloatRepr q
  | .str s => "'" ++ s ++ "'"
  | .arr xs => "[" ++ String.intercalate ", " (pyReprList xs) ++ "]"
  | .obj fs => "\x7b" ++ String.intercalate ", " (pyReprFields fs) ++ "\x7d"

def pyReprList : List JVal → List String
  | [] => []
  | x :: xs => pyRepr x :: pyReprList xs

def pyReprFields : List (String × JVal) → List String
  | [] => []
  | (k, v) :: fs => ("'" ++ k ++ "': " ++ pyRepr v) :: pyReprFields fs
end

/-- `'; '.join(v)`: joins a list of strings; a string is joined
character-wise (strings are iterable); any other value raises
`TypeError` (`none`), as does a list with a non-string element. -/
def pyJoin (sep : String) : JVal → Option String
  | .arr xs => do
      let parts ← xs.mapM (fun v => match v with | .str s => some s | _ => none)
      some (String.intercalate sep parts)
  | .str s => some (String.intercalate sep (s.toList.map (fun c => String.mk [c])))
  | _ => none

/-- JSON string escaping as `json.dumps` with `ensure_ascii=False`
performs it: `"` and `\` are escaped, control characters use their
short escapes. -/
def jsonEscapeChar (c : Char) : String :=
  if c = '"' then "\\\""
  else if c = '\\' then "\\\\"
  else if c = '\n' then "\\n"
  else if c = '\t' then "\\t"
  else if c = '\r' then "\\r"
  else String.mk [c]

def jsonEscape (s : String) : String :=
  String.join (s.toList.map jsonEscapeChar)

mutual
/-- `json.dumps(v, ensure_ascii=False)` with the default separators
`", "` and `": "`. -/
def pyJsonDumps : JVal → String
  | .null => "null"
  | .bool b => if b then "true" else "false"
  | .int n => toString n
  | .float q => pyFloatRepr q
  | .str s => "\"" ++ jsonEscape s ++ "\""
  | .arr xs => "[" ++ String.intercalate ", " (pyJsonDumpsList xs) ++ "]"
  | .obj fs => "\x7b" ++ String.intercalate ", " (pyJsonDumpsFields fs) ++ "\x7d"

def pyJsonDumpsList : List JVal → List String
  | [] => []
  | x :: xs => pyJsonDumps x :: pyJsonDumpsList xs

def pyJsonDumpsFields : List (String × JVal) → List String
  | [] => []
  | (k, v) :: fs => ("\"" ++ jsonEscape k ++ "\": " ++ pyJsonDumps v) :: pyJsonDumpsFields fs
end

/-- Insertion into a key-sorted association list (for
`json.dumps(..., sort_keys=True)`). -/
def insertByKey (p : String × JVal) : List (String × JVal) → List (String × JVal)
  | [] => [p]
  | q :: rest => if p.1 ≤ q.1 then p :: q :: rest else q :: insertByKey p rest

def sortFieldsByKey (fs : List (String × JVal)) : List (String × JVal) :=
  fs.foldr insertByKey []

mutual
/-- Recursively sort every object's fields by key
(`json.dumps(..., sort_keys=True)`). -/
def sortKeysDeep : JVal → JVal
  | .obj fs => .obj (sortFieldsByKey (sortKeysDeepFields fs))
  | .arr xs => .arr (sortKeysDeepList xs)
  | v => v

def sortKeysDeepList : List JVal → List JVal
  | [] => []
  | x :: xs => sortKeysDeep x :: sortKeysDeepList xs

def sortKeysDeepFields : List (String × JVal) → List (String × JVal)
  | [] => []
  | (k, v) :: fs => (k, sortKeysDeep v) :: sortKeysDeepFields fs
end

/-- `json.dumps(v, sort_keys=True, ensure_ascii=False)`. -/
def pyJsonDumpsSorted (v : JVal) : String := pyJsonDumps (sortKeysDeep v)

-- ----------------------------------------------------------------------
-- json.loads

/-- JSON whitespace (the only characters `json.loads` skips between
tokens). -/
def jsonWs (c : Char) : Bool := c = ' ' || c = '\t' || c = '\n' || c = '\r'

def skipWs : List Char → List Char
  | c :: rest => if jsonWs c then skipWs rest else c :: rest
  | [] => []

/-- Parse the body of a JSON string after the opening quote, handling
the standard escapes and `\uXXXX`. -/
def parseJsonStringAux (fuel : Nat) (acc : List Char) : List Char → Option (String × List Char)
  | [] => none
  | c :: rest =>
    match fuel with
    | 0 => none
    | fuel + 1 =>
      if c = '"' then some (String.mk acc.reverse, rest)
      else if c = '\\' then
        match rest with
        | [] => none
        | e :: rest' =>
          if e = '"' then parseJsonStringAux fuel ('"' :: acc) rest'
          else if e = '\\' then parseJsonStringAux fuel ('\\' :: acc) rest'
          else if e = '/' then parseJsonStringAux fuel ('/' :: acc) rest'
          else if e = 'n' then parseJsonStringAux fuel ('\n' :: acc) rest'
          else if e = 't' then parseJsonStringAux fuel ('\t' :: acc) rest'
          else if e = 'r' then parseJsonStringAux fuel ('\r' :: acc) rest'
          else if e = 'b' then parseJsonStringAux fuel ('\x08' :: acc) rest'
          else if e = 'f' then parseJsonStringAux fuel ('\x0c' :: acc) rest'
          else if e = 'u' then
            match rest' with
            | h1 :: h2 :: h3 :: h4 :: rest'' =>
              let hex? (h : Char) : Option Nat :=
                if h.isDigit then some (h.toNat - '0'.toNat)
                else if 'a' ≤ h ∧ h ≤ 'f' then some (h.toNat - 'a'.toNat + 10)
                else if 'A' ≤ h ∧ h ≤ 'F' then some (h.toNat - 'A'.toNat + 10)
                else none
              match hex? h1, hex? h2, hex? h3, hex? h4 with
              | some a, some b, some c', some d =>
                let n := ((a * 16 + b) * 16 + c') * 16 + d
                if h : n.isValidChar then
                  parseJsonStringAux fuel (Char.ofNatAux n h :: acc) rest''
                else none
              | _, _, _, _ => none
            | _ => none
          else none
      else parseJsonStringAux fuel (c :: acc) rest

/-- Parse a JSON number per the grammar `json.loads` accepts
(`-?(0|[1-9][0-9]*)(.digits)?([eE][+-]?digits)?`); integers without a
fraction or exponent become Python ints, everything else floats. -/
def parseJsonNumber (cs : List Char) : Option (JVal × List Char) :=
  let (neg, cs₁) := match cs with
    | '-' :: rest => (true, rest)
    | rest => (false, rest)
  let intPart := cs₁.takeWhile Char.isDigit
  let cs₂ := cs₁.drop intPart.length
  if intPart = [] then none
  else if intPart.length > 1 ∧ intPart.headI = '0' then none
  else
    let intVal : Nat := intPart.foldl (fun acc c => acc * 10 + (c.toNat - '0'.toNat)) 0
    let (fracDigits, cs₃) := match cs₂ with
      | '.' :: rest => (rest.takeWhile Char.isDigit, rest.drop (rest.takeWhile Char.isDigit).length)
      | rest => ([], rest)
    if cs₂ ≠ cs₃ ∧ fracDigits = [] then none
    else
      let hasFrac := cs₂ ≠ cs₃
      let (hasExp, expNeg, expDigits, cs₄) := match cs₃ with
        | 'e' :: '-' :: rest => (true, true, rest.takeWhile Char.isDigit, rest.drop (rest.takeWhile Char.isDigit).length)
        | 'e' :: '+' :: rest => (true, false, rest.takeWhile Char.isDigit, rest.drop (rest.takeWhile Char.isDigit).length)
        | 'e' :: rest => (true, false, rest.takeWhile Char.isDigit, rest.drop (rest.takeWhile Char.isDigit).length)
        | 'E' :: '-' :: rest => (true, true, rest.takeWhile Char.isDigit, rest.drop (rest.takeWhile Char.isDigit).length)
        | 'E' :: '+' :: rest => (true, false, rest.takeWhile Char.isDigit, rest.drop (rest.takeWhile Char.isDigit).length)
        | 'E' :: rest => (true, false, rest.takeWhile Char.isDigit, rest.drop (rest.takeWhile Char.isDigit).length)
        | rest => (false, false, [], rest)
      if hasExp ∧ expDigits = [] then none
      else
        let mantissa : Nat := fracDigits.foldl (fun acc c => acc * 10 + (c.toNat - '0'.toNat)) intVal
        let expVal : Nat := expDigits.foldl (fun acc c => acc * 10 + (c.toNat - '0'.toNat)) 0
        if ¬hasFrac ∧ ¬hasExp then
          some (.int (if neg then -(intVal : Int) else (intVal : Int)), cs₂)
        else
          let base : Rat := (mantissa : Rat) / ((10 : Rat) ^ fracDigits.length)
          let scaled : Rat := if expNeg then base / ((10 : Rat) ^ expVal) else base * ((10 : Rat) ^ expVal)
          some (.float (if neg then -scaled else scaled), cs₄)

mutual
/-- Fuel-indexed recursive-descent JSON value parser (the shape of
values `json.loads` accepts). -/
def parseJVal (fuel : Nat) (cs : List Char) : Option (JVal × List Char) :=
  match fuel with
  | 0 => none
  | fuel + 1 =>
    match cs with
    | [] => none
    | c :: rest =>
      if c = '"' then
        match parseJsonStringAux (rest.length + 1) [] rest with
        | some (s, rest') => some (.str s, rest')
        | none => none
      else if c = '\x7b' then
        let rest' := skipWs rest
        match rest' with
        | '\x7d' :: rest'' => some (.obj [], rest'')
        | _ =>
          match parseJMembers fuel [] rest' with
          | some (fs, rest'') => some (.obj fs, rest'')
          | none => none
      else if c = '[' then
        let rest' := skipWs rest
        match rest' with
        | ']' :: rest'' => some (.arr [], rest'')
        | _ =>
          match parseJElems fuel [] rest' with
          | some (xs, rest'') => some (.arr xs, rest'')
          | none => none
      else if ['t','r','u','e'].isPrefixOf cs then some (.bool true, cs.drop 4)
      else if ['f','a','l','s','e'].isPrefixOf cs then some (.bool false, cs.drop 5)
      else if ['n','u','l','l'].isPrefixOf cs then some (.null, cs.drop 4)
      else parseJsonNumber cs

/-- Object members: `"key" : value (, "key" : value)*` followed by `}`. -/
def parseJMembers (fuel : Nat) (acc : JDict) (cs : List Char) : Option (JDict × List Char) :=
  match fuel with
  | 0 => none
  | fuel + 1 =>
    match cs with
    | '"' :: rest =>
      match parseJsonStringAux (rest.length + 1) [] rest with
      | none => none
      | some (k, rest₁) =>
        match skipWs rest₁ with
        | ':' :: rest₂ =>
          match parseJVal fuel (skipWs rest₂) with
          | none => none
          | some (v, rest₃) =>
            let acc' := dictSet acc k v
            match skipWs rest₃ with
            | ',' :: rest₄ => parseJMembers fuel acc' (skipWs rest₄)
            | '\x7d' :: rest₄ => some (acc', rest₄)
            | _ => none
        | _ => none
    | _ => none

/-- Array elements: `value (, value)*` followed by `]`. -/
def parseJElems (fuel : Nat) (acc : List JVal) (cs : List Char) : Option (List JVal × List Char) :=
  match fuel with
  | 0 => none
  | fuel + 1 =>
    match parseJVal fuel cs with
    | none => none
    | some (v, rest) =>
      match skipWs rest with
      | ',' :: rest' => parseJElems fuel (acc ++ [v]) (skipWs rest')
      | ']' :: rest' => some (acc ++ [v], rest')
      | _ => none
end

/-- `json.loads(s)`: parse a complete JSON document, tolerating
surrounding whitespace, rejecting trailing garbage
(`None` models `json.JSONDecodeError`). -/
def pyJsonLoads (s : String) : Option JVal :=
  match parseJVal (s.length + 1) (skipWs s.toList) with
  | some (v, rest) => if skipWs rest = [] then some v else none
  | none => none

-- ----------------------------------------------------------------------
-- mvp/app/schemas.py

/-- The JSON-Schema fragment the five document schemas use: strings
with an optional `maxLength`, integers with an optional `minimum`,
arrays of strings, and objects with `required` keys, typed
`properties` and `additionalProperties: true`. -/
inductive JSchema where
  | jstr (maxLength : Option Nat) : JSchema
  | jint (minimum : Option Int) : JSchema
  | jarrStr : JSchema
  | jobj (required : List String) (props : List (String × JSchema)) : JSchema

/-- Generic association-list lookup (first binding). -/
def listLookup {α : Type} (d : List (String × α)) (k : String) : Option α :=
  match d with
  | [] => none
  | (k', v) :: rest => if k' = k then some v else listLookup rest k

mutual
/-- Draft-7 validation as `jsonschema.Draft7Validator(...).validate`
decides it for the constructs above: `"integer"` matches Python ints
(not bools, not floats), `"string"` matches `str` with `len ≤
maxLength`, `required` demands key presence, properties constrain only
keys that are present, and additional properties are unconstrained. -/
def validates : JSchema → JVal → Bool
  | .jstr maxLen, .str s =>
      match maxLen with
      | none => true
      | some m => s.length ≤ m
  | .jstr _, _ => false
  | .jint minv, .int n =>
      match minv with
      | none => true
      | some m => m ≤ n
  | .jint _, _ => false
  | .jarrStr, .arr xs => xs.all (fun v => match v with | .str _ => true | _ => false)
  | .jarrStr, _ => false
  | .jobj req props, .obj fs =>
      req.all (fun k => (pyLookup fs k).isSome) && validatesProps props fs
  | .jobj _ _, _ => false

def validatesProps : List (String × JSchema) → List (String × JVal) → Bool
  | [], _ => true
  | (k, sch) :: rest, fs =>
      (match pyLookup fs k with
       | none => true
       | some v => validates sch v) && validatesProps rest fs
end

/-- `IDENTIFICATION_SCHEMA` of `mvp/app/schemas.py`. -/
def IDENTIFICATION_SCHEMA : JSchema :=
  .jobj [] [("nome", .jstr none), ("cpf", .jstr none), ("cns", .jstr none)]

/-- `SOAP_SCHEMA` of `mvp/app/schemas.py`. -/
def SOAP_SCHEMA : JSchema :=
  .jobj ["S", "O", "A", "P"]
    [("S", .jstr (some 6000)), ("O", .jstr (some 6000)), ("A", .jarrStr),
     ("P", .jarrStr), ("referencias", .jarrStr),
     ("retorno_em_dias", .jint (some 0)),
     ("identificacao", IDENTIFICATION_SCHEMA)]

/-- `ATESTADO_SCHEMA` of `mvp/app/schemas.py`. -/
def ATESTADO_SCHEMA : JSchema :=
  .jobj ["texto", "cid", "dias_afastamento"]
    [("texto", .jstr (some 4000)), ("cid", .jstr none),
     ("dias_afastamento", .jint (some 0)),
     ("identificacao", IDENTIFICATION_SCHEMA)]

/-- `ENCAMINHAMENTO_SCHEMA` of `mvp/app/schemas.py`. -/
def ENCAMINHAMENTO_SCHEMA : JSchema :=
  .jobj ["texto"]
    [("texto", .jstr (some 5000)), ("especialidade", .jstr none),
     ("referencias", .jarrStr), ("identificacao", IDENTIFICATION_SCHEMA)]

/-- `PARECER_SCHEMA` of `mvp/app/schemas.py`. -/
def PARECER_SCHEMA : JSchema :=
  .jobj ["texto"]
    [("texto", .jstr (some 6000)), ("motivo", .jstr none),
     ("conclusao", .jarrStr), ("recomendacoes", .jarrStr),
     ("anexos", .jarrStr), ("identificacao", IDENTIFICATION_SCHEMA)]

/-- `LAUDO_SCHEMA` of `mvp/app/schemas.py`. -/
def LAUDO_SCHEMA : JSchema :=
  .jobj ["texto"]
    [("texto", .jstr (some 6000)), ("motivo", .jstr none),
     ("achados", .jarrStr), ("conclusao", .jarrStr),
     ("recomendacoes", .jarrStr), ("anexos", .jarrStr),
     ("identificacao", IDENTIFICATION_SCHEMA)]

/-- `SCHEMA_MAP` of `mvp/app/schemas.py`: the registry of the five
supported document types.  `mvp/app/pipeline.py` refers to this
registry as `SCHEMAS`; that older name is absent from the sources and
the spec describes a single five-type Schema Registry, so both names
denote this map. -/
def SCHEMA_MAP : List (String × JSchema) :=
  [("SOAP", SOAP_SCHEMA), ("ATESTADO", ATESTADO_SCHEMA),
   ("ENCAMINHAMENTO", ENCAMINHAMENTO_SCHEMA), ("PARECER", PARECER_SCHEMA),
   ("LAUDO", LAUDO_SCHEMA)]

/-- The supported document-type names, in registry order. -/
def supportedTypes : List String := SCHEMA_MAP.map Prod.fst

/-- `get_schema` of `mvp/app/schemas.py`: uppercase, then look up;
raises `KeyError` on an unrecognized type. -/
def get_schema (document_type : String) : Except PErr JSchema :=
  let doc_type := pyUpper document_type
  match listLookup SCHEMA_MAP doc_type with
  | none => .error (.keyError ("Schema não encontrado para " ++ document_type))
  | some sch => .ok sch

/-- `validate_document` of `mvp/app/schemas.py`. -/
def validate_document (document_type : String) (payload : JVal) : Except PErr Unit := do
  let schema ← get_schema document_type
  if validates schema payload then .ok () else .error .validationError

-- ----------------------------------------------------------------------
-- mvp/app/utils.py text helpers

/-- Split a character list at every character satisfying `p`, keeping
empty segments (the semantics of `str.split(sep)` per separator hit). -/
def splitByPredAux (p : Char → Bool) (cur : List Char) : List Char → List (List Char)
  | [] => [cur.reverse]
  | c :: rest =>
      if p c then cur.reverse :: splitByPredAux p [] rest
      else splitByPredAux p (c :: cur) rest

def splitByPred (p : Char → Bool) (s : String) : List String :=
  (splitByPredAux p [] s.toList).map String.mk

/-- Python `str.split()` with no arguments: split on whitespace runs,
dropping empty pieces. -/
def pySplitWs (s : String) : List String :=
  (splitByPred pyIsSpace s).filter (· ≠ "")

/-- `sanitize_text` of `mvp/app/utils.py`: drop `\r`, collapse all
whitespace runs to single spaces, strip. -/
def sanitize_text (s : String) : String :=
  if s = "" then ""
  else pyStrip (String.intercalate " " (pySplitWs (pyReplace s "\r" "")))

/-- `lowered[0].upper() + lowered[1:]`. -/
def capFirst (s : String) : String :=
  match s.toList with
  | [] => s
  | c :: rest => String.mk (c.toUpper :: rest)

/-- Left-to-right, fail-fast effectful map (the evaluation order of a
Python list comprehension whose element expression may raise). -/
def mapME {α : Type} (g : α → Except PErr JVal) : List α → Except PErr (List JVal)
  | [] => .ok []
  | x :: xs => do
      let y ← g x
      let ys ← mapME g xs
      .ok (y :: ys)

/-- `normalize_text` of `mvp/app/utils.py` applied to an arbitrary
payload value: falsy inputs return `""`, truthy strings are
lower-cased, passed through the synonym glossary and re-capitalized,
and any truthy non-string raises `AttributeError` at `.lower()`.  The
glossary file `mvp/data/synonyms_ptbr.json` is not among the verified
sources and `load_glossary` falls back to the empty dictionary when
the file is unavailable, so the synonym pass is the identity map here. -/
def utilsNormalizeText (v : JVal) : Except PErr JVal :=
  if ¬truthy v then .ok (.str "")
  else match v with
    | .str s =>
        let lowered := pyLower s
        if lowered = "" then .ok (.str lowered)
        else .ok (.str (capFirst lowered))
    | _ => .error .attributeError

/-- `normalize_bullets` of `mvp/app/utils.py`: falsy input gives `[]`;
a list has its truthy items normalized; a string is iterated
character-wise, a dict key-wise (Python iteration); other truthy
values raise `TypeError`. -/
def utilsNormalizeBullets (v : JVal) : Except PErr JVal :=
  if ¬truthy v then .ok (.arr [])
  else match v with
    | .arr xs => do
        let items ← mapME utilsNormalizeText (xs.filter truthy)
        .ok (.arr items)
    | .str s => do
        let chars := (s.toList.map (fun c => JVal.str (String.mk [c]))).filter truthy
        let items ← mapME utilsNormalizeText chars
        .ok (.arr items)
    | .obj fs => do
        let keys := (fs.map (fun p => JVal.str p.1)).filter truthy
        let items ← mapME utilsNormalizeText keys
        .ok (.arr items)
    | _ => .error .typeError

/-- `make_cache_key` of `mvp/app/utils.py`.  The SHA-256 hex digest is
modelled by the pre-image string it hashes (the digest is treated as
injective); the claims below depend only on key equality/distinctness,
never on digest values. -/
def make_cache_key (parts : List String) (params : Option JDict) : String :=
  let payload := String.intercalate "::" parts
  match params with
  | some ps => if truthy (.obj ps) then payload ++ "::" ++ pyJsonDumpsSorted (.obj ps) else payload
  | none => payload

-- ----------------------------------------------------------------------
-- mvp/app/normalizer.py

/-- `normalize_text` of `mvp/app/normalizer.py` applied to a payload
value: a falsy input is returned unchanged, a truthy string is
lower-cased, passed through the synonym glossary and (only when longer
than one character) re-capitalized; a truthy non-string raises
`AttributeError`.  As with `mvp/app/utils.py`, the synonyms data file
is not among the verified sources and `load_synonyms` falls back to
`{}`, so the glossary pass is the identity. -/
def normalizerNormalizeText (v : JVal) : Except PErr JVal :=
  if ¬truthy v then .ok v
  else match v with
    | .str s =>
        let t := pyLower s
        .ok (.str (if t.length > 1 then capFirst t else t))
    | _ => .error .attributeError

/-- `normalize_bullets` of `mvp/app/normalizer.py`:
`[normalize_text(b) for b in bullets] if bullets else []` (no item
filtering, unlike the `utils.py` version). -/
def normalizerNormalizeBullets (v : JVal) : Except PErr JVal :=
  if ¬truthy v then .ok (.arr [])
  else match v with
    | .arr xs => do
        let items ← mapME normalizerNormalizeText xs
        .ok (.arr items)
    | .str s => do
        let items ← mapME normalizerNormalizeText (s.toList.map (fun c => JVal.str (String.mk [c])))
        .ok (.arr items)
    | .obj fs => do
        let items ← mapME normalizerNormalizeText (fs.map (fun p => JVal.str p.1))
        .ok (.arr items)
    | _ => .error .typeError

/-- `normalize_payload` of `mvp/app/normalizer.py`. -/
def normalize_payload (payload : JDict) : Except PErr JDict := do
  let q ← normalizerNormalizeText (dictGetD payload "queixa_principal" (.str ""))
  let b ← normalizerNormalizeBullets (dictGetD payload "bullets" (.arr []))
  .ok (dictSet (dictSet payload "queixa_principal" q) "bullets" b)

-- ----------------------------------------------------------------------
-- mvp/app/validators.py

/-- `_digits_only` applied to an arbitrary value: iterating a
non-string raises (`TypeError`/`AttributeError`, collapsed to
`typeError` here). -/
def digitsOfV : JVal → Except PErr String
  | .str s => .ok (digitsOnly s)
  | _ => .error .typeError

/-- The identifier rules of `validar_regras` (`if cpf: ...` and
`if cns: ...`): a truthy identifier with a digit count other than the
expected one yields the corresponding warning. -/
def idAlerts (v : JVal) (expected : Nat) (msg : String) : Except PErr (List String) :=
  if truthy v then do
    let ds ← digitsOfV v
    pure (if ds.length ≠ expected then [msg] else [])
  else pure []

/-- The temperature rule of `validar_regras`: fires when `temp` is
present and `float(temp)` is below 30 or above 43; a failing
`float(...)` cast is swallowed by the surrounding `try`/`except`. -/
def tempAlerts (vitais : JDict) : List String :=
  match dictGet vitais "temp" with
  | .null => []
  | temp =>
    match pyFloat temp with
    | some q =>
        if q < 30 ∨ q > 43 then ["Temperatura fora de faixa plausível (30–43 °C)."] else []
    | none => []

/-- The ATESTADO-specific rules of `validar_regras`. -/
def atestadoAlerts (saida : JDict) : List String :=
  let d1 :=
    match dictGet saida "dias_afastamento" with
    | .null => ["Atestado sem 'dias_afastamento'."]
    | dias =>
      match pyInt dias with
      | none => ["Dias de afastamento inválido (não numérico)."]
      | some d => if d < 1 ∨ d > 30 then ["Dias de afastamento fora do intervalo usual (1–30)."] else []
  let d2 := if ¬truthy (dictGet saida "cid") then ["Atestado sem CID informado."] else []
  d1 ++ d2

/-- The SOAP-specific rules of `validar_regras`. -/
def soapAlerts (saida : JDict) : List String :=
  let missing := (["S", "O", "A", "P"].filter (fun c => (pyLookup saida c).isNone)).map
    (fun c => "Campo SOAP ausente: " ++ c ++ ".")
  let retorno :=
    match pyLookup saida "retorno_em_dias" with
    | none => []
    | some v =>
      match pyInt v with
      | none => ["retorno_em_dias inválido (não numérico)."]
      | some r => if r < 1 ∨ r > 180 then ["retorno_em_dias fora do intervalo (1–180)."] else []
  missing ++ retorno

/-- `validar_regras` of `mvp/app/validators.py`: the plausibility
rules engine.  Pure and deterministic; an `Except` error models the
(uncaught) exception raised when `sinais_vitais`/`identificacao` hold
a truthy non-dict or an identifier is a truthy non-string. -/
def validar_regras (tipo : String) (saida entrada : JDict) : Except PErr (List String) := do
  let vitais ←
    match getDictOr entrada "sinais_vitais" with
    | some d => Except.ok d
    | none => Except.error PErr.attributeError
  let a1 := tempAlerts vitais
  let identV := pyOr (pyOr (dictGet saida "identificacao") (dictGet entrada "identificacao")) (.obj [])
  let ident ←
    match identV with
    | .obj fs => Except.ok fs
    | _ => Except.error PErr.attributeError
  let a2 ← idAlerts (pyOr (dictGet ident "cpf") (.str "")) 11
    "CPF com formato/quantidade de dígitos inválido (esperado: 11)."
  let a3 ← idAlerts (pyOr (dictGet ident "cns") (.str "")) 15
    "CNS com formato/quantidade de dígitos inválido (esperado: 15)."
  let a4 :=
    if tipo = "ATESTADO" then atestadoAlerts saida
    else if tipo = "SOAP" then soapAlerts saida
    else []
  .ok (a1 ++ a2 ++ a3 ++ a4)

-- ----------------------------------------------------------------------
-- mvp/app/llm.py: deterministic fallback

def asDictE : JVal → Except PErr JDict
  | .obj fs => .ok fs
  | _ => .error .attributeError

def ofDictE : Option JDict → Except PErr JDict
  | some d => .ok d
  | none => .error .attributeError

def ofJoinE : Option String → Except PErr String
  | some s => .ok s
  | none => .error .typeError

/-- A failing `int(...)` cast (Python raises `ValueError` on an
unparsable string and `TypeError` on a non-number; both are modelled
by `intCastError`). -/
def ofIntE : Option Int → Except PErr Int
  | some n => .ok n
  | none => .error .intCastError

/-- `fallback_rule_based` of `mvp/app/llm.py`: the deterministic
fallback generator.

Note on the PARECER branch: in the source (llm.py lines 255-263) the
prose expression is a Python `SyntaxError` — the parenthesized
conditional `(f"Itens adicionais: ..." if bullets else "\n")` is
immediately followed by the adjacent string literal `f"ANÁLISE: ..."`,
which Python's grammar rejects (implicit concatenation only joins
literals), so the module as committed does not even import.  The
branch is modelled here with the evidently intended semantics: the six
section lines concatenated, the bullet sentence inserted when bullets
are present. -/
def fallback_rule_based (document_type : String) (dados : JDict) :
    Except PErr (String × JVal) := do
  let tipo := pyUpper document_type
  let pessoa ← ofDictE (getDictOr dados "pessoa")
  let ident ← ofDictE (getDictOr dados "identificacao")
  let idade := dictGetD pessoa "idade" (.str "não informado")
  let sexo := dictGetD pessoa "sexo" (.str "não informado")
  let nome := dictGetD ident "nome" (.str "Paciente")
  let cpf := dictGetD ident "cpf" (.str "")
  let cns := dictGetD ident "cns" (.str "")
  let bullets := pyOr (dictGet dados "bullets") (.arr [])
  let queixa := pyOr (dictGet dados "queixa_principal") (.str "não informado")
  let sinais ← ofDictE (getDictOr dados "sinais_vitais")
  let pa := dictGetD sinais "pa" (.str "não informado")
  let fc := dictGetD sinais "fc" (.str "não informado")
  let temp := dictGetD sinais "temp" (.str "não informado")
  let motivo := pyOr (pyOr (dictGet dados "motivo") (dictGet dados "finalidade")) (.str "não informado")
  let achados_texto := pyOr (dictGet dados "achados_texto") (.str "não informado")
  let identJson : JVal := .obj [("nome", nome), ("cpf", cpf), ("cns", cns)]
  if tipo = "SOAP" then do
    let extra ←
      if truthy bullets then do
        let j ← ofJoinE (pyJoin "; " bullets)
        pure ("Itens adicionais: " ++ j ++ ". ")
      else pure ""
    let subjetivo := pyStrip
      (pyStr nome ++ ", " ++ pyStr sexo ++ ", " ++ pyStr idade ++ " anos, refere " ++
        pyStr queixa ++ ". " ++ extra)
    let objetivo := "Exame físico sem alterações importantes. Sinais vitais: PA " ++ pyStr pa ++
      ", FC " ++ pyStr fc ++ " bpm, Temp " ++ pyStr temp ++ " °C."
    let avaliacao : List String :=
      [match queixa with | .str s => s | _ => "Avaliação clínica em andamento"]
    let plano : List String :=
      ["Orientações gerais fornecidas", "Sinais de alarme esclarecidos",
       "Retorno programado conforme disponibilidade"]
    let json_out : JVal := .obj
      [("S", .str subjetivo), ("O", .str objetivo),
       ("A", .arr (avaliacao.map .str)), ("P", .arr (plano.map .str)),
       ("referencias", .arr []), ("identificacao", identJson)]
    let texto := "S: " ++ subjetivo ++ "\nO: " ++ objetivo ++ "\nA: " ++
      String.intercalate ", " avaliacao ++ "\nP: " ++ String.intercalate "; " plano
    .ok (texto, json_out)
  else if tipo = "ATESTADO" then do
    let dias := pyOr (dictGet dados "dias_afastamento") (.int 3)
    let cid := pyOr (dictGet dados "cid") (.str "não informado")
    let texto := "Atesto para fins legais que " ++ pyStr nome ++ " (CPF " ++
      pyStr (pyOr cpf (.str "não informado")) ++ ", CNS " ++
      pyStr (pyOr cns (.str "não informado")) ++ ") foi avaliado(a) nesta unidade em " ++
      pyStr (pyOr motivo (.str "consulta")) ++ ". Condição compatível com CID " ++
      pyStr cid ++ ", com necessidade de afastamento por " ++ pyStr dias ++ " dia(s)."
    let d ← ofIntE (pyInt dias)
    let json_out : JVal := .obj
      [("texto", .str texto), ("cid", cid), ("dias_afastamento", .int d),
       ("identificacao", identJson)]
    .ok (texto, json_out)
  else if tipo = "ENCAMINHAMENTO" then do
    let especialidade := pyOr (dictGet dados "especialidade") (.str "especialidade pertinente")
    let texto := "Encaminho " ++ pyStr nome ++ ", " ++ pyStr sexo ++ ", " ++ pyStr idade ++
      " anos, para avaliação em " ++ pyStr especialidade ++ ". Motivo: " ++ pyStr queixa ++
      ". Sinais vitais atuais: PA " ++ pyStr pa ++ ", FC " ++ pyStr fc ++ " bpm, Temp " ++
      pyStr temp ++ " °C."
    let json_out : JVal := .obj
      [("texto", .str texto), ("especialidade", especialidade),
       ("referencias", .arr []), ("identificacao", identJson)]
    .ok (texto, json_out)
  else if tipo = "PARECER" then do
    let extra ←
      if truthy bullets then do
        let j ← ofJoinE (pyJoin "; " bullets)
        pure ("Itens adicionais: " ++ j ++ ".\n")
      else pure "\n"
    let texto := "IDENTIFICAÇÃO: " ++ pyStr nome ++ " (CPF " ++
      pyStr (pyOr cpf (.str "não informado")) ++ "; CNS " ++
      pyStr (pyOr cns (.str "não informado")) ++ "), " ++ pyStr sexo ++ ", " ++
      pyStr idade ++ " anos.\n" ++
      "MOTIVO: " ++ pyStr motivo ++ ".\n" ++
      "SÍNTESE: " ++ pyStr queixa ++ ". " ++ extra ++
      "ANÁLISE: " ++ pyStr achados_texto ++ ".\n" ++
      "CONCLUSÃO: quadro compatível com " ++ pyStr queixa ++ ".\n" ++
      "RECOMENDAÇÕES: acompanhamento na APS, retorno programado e orientações reforçadas."
    let json_out : JVal := .obj
      [("texto", .str texto), ("motivo", motivo),
       ("conclusao", .arr [.str ("Quadro compatível com " ++ pyStr queixa)]),
       ("recomendacoes", .arr
         [.str "Acompanhamento na APS", .str "Retorno programado",
          .str "Sinais de alarme esclarecidos"]),
       ("anexos", .arr []), ("identificacao", identJson)]
    .ok (texto, json_out)
  else if tipo = "LAUDO" then do
    let texto := "IDENTIFICAÇÃO: " ++ pyStr nome ++ " (CPF " ++
      pyStr (pyOr cpf (.str "não informado")) ++ "; CNS " ++
      pyStr (pyOr cns (.str "não informado")) ++ "), " ++ pyStr sexo ++ ", " ++
      pyStr idade ++ " anos.\n" ++
      "MOTIVO: " ++ pyStr motivo ++ ".\n" ++
      "PROCEDIMENTO/EXAME: conforme avaliação clínica.\n" ++
      "ACHADOS: " ++ pyStr achados_texto ++ ".\n" ++
      "CONCLUSÃO: achados compatíveis com " ++ pyStr queixa ++ ".\n" ++
      "RECOMENDAÇÕES: correlacionar com quadro clínico e manter acompanhamento na APS."
    let achados ←
      match achados_texto with
      | .str s => Except.ok (((splitByPred (· = ';') s).map pyStrip).filter (· ≠ ""))
      | _ => Except.error PErr.attributeError
    let json_out : JVal := .obj
      [("texto", .str texto), ("motivo", motivo),
       ("achados", .arr (achados.map .str)),
       ("conclusao", .arr [.str ("Achados compatíveis com " ++ pyStr queixa)]),
       ("recomendacoes", .arr
         [.str "Correlacionar clinicamente", .str "Retorno programado",
          .str "Orientações de sinais de alarme"]),
       ("anexos", .arr []), ("identificacao", identJson)]
    .ok (texto, json_out)
  else do
    let texto := "Documento clínico referente a " ++ pyStr nome ++ ". Gerado automaticamente." ++
      " Dados fornecidos: " ++ sanitize_text (pyJsonDumps (.obj dados))
    .ok (texto, .obj [("texto", .str texto), ("identificacao", identJson)])

-- ----------------------------------------------------------------------
-- mvp/app/llm.py: response parsing

/-- `LLMClient._parse_completion`: split a raw completion into a prose
block and a best-effort-parsed JSON block.  Total by construction
(every Python operation it performs on a `str` is non-raising, and the
`json.loads` call is guarded by `try`/`except`). -/
def parse_completion (response : String) : String × JVal :=
  let (text_block, json_block) :=
    if pyContains response "JSON:" then
      pySplit1 response "JSON:"
    else if pyContains response "\x7b" && pyContains response "\x7d" then
      match pyFind response "\x7b", pyRFind response "\x7d" with
      | some start, some endi => (pySlice response 0 start, pySlice response start (endi + 1))
      | _, _ => (response, "")
    else (response, "")
  let text_block := pyStrip (pyReplace text_block "TEXTO:" "")
  let json_payload : JVal :=
    if json_block ≠ "" then
      match pyJsonLoads (stripChars (fun c => c = '`' || c = '\n') (pyStrip json_block)) with
      | some v => v
      | none => .obj []
    else .obj []
  (text_block, json_payload)

-- ----------------------------------------------------------------------
-- mvp/app/llm.py: LRU response cache

/-- The `OrderedDict` response cache: an association list in recency
order, oldest first. -/
abbrev Cache (α : Type) := List (String × α)

/-- `OrderedDict.move_to_end(key)` (a no-op here when the key is
absent; the source only calls it on present keys). -/
def moveToEnd {α : Type} (c : Cache α) (k : String) : Cache α :=
  match listLookup c k with
  | none => c
  | some v => (c.filter (fun p => p.1 ≠ k)) ++ [(k, v)]

/-- `LLMClient._cache_get`: look up, refreshing recency on a hit. -/
def cache_get {α : Type} (c : Cache α) (k : String) : Option α × Cache α :=
  match listLookup c k with
  | none => (none, c)
  | some v => (some v, moveToEnd c k)

/-- `self.cache[key] = value` on an `OrderedDict`: update in place
(keeping the key's position) or append. -/
def odAssign {α : Type} (c : Cache α) (k : String) (v : α) : Cache α :=
  if (listLookup c k).isSome then c.map (fun p => if p.1 = k then (k, v) else p)
  else c ++ [(k, v)]

/-- `while len(self.cache) > self.cache_size: self.cache.popitem(last=False)`. -/
def popWhileOver {α : Type} (size : Nat) : Cache α → Cache α
  | [] => []
  | x :: xs => if xs.length + 1 > size then popWhileOver size xs else x :: xs

/-- `LLMClient._cache_set`: assign, move to most-recent, evict from
the least-recent end while over capacity. -/
def cache_set {α : Type} (size : Nat) (c : Cache α) (k : String) (v : α) : Cache α :=
  popWhileOver size (moveToEnd (odAssign c k v) k)

-- ----------------------------------------------------------------------
-- mvp/app/llm.py: provider retry loop

/-- The body of `LLMClient._call_provider`'s `for attempt in
range(max_retries + 1)` loop, instrumented with the effects the claims
observe: the number of `provider.generate` calls made and the sequence
of back-off sleeps performed.  The provider is modelled as a function
of the attempt index (its outcome may differ between attempts);
`.error` covers both `ProviderError` and any other exception, which
the source handles identically (record as `last_error`, log, continue).
The `[]` case returns the `RuntimeError("Provider não respondeu")`
raised when the loop ends with `last_error` still `None`. -/
def attemptLoop (gen : Nat → Except String String) (backoff : Rat) (maxRetries : Nat) :
    List Nat → Nat × List Rat × Except String String
  | [] => (0, [], .error "Provider não respondeu")
  | a :: rest =>
    match gen a with
    | .ok r => (1, [], .ok r)
    | .error e =>
      let sleeps := if a < maxRetries then [backoff * 2 ^ a] else []
      match rest with
      | [] => (1, sleeps, .error e)
      | b :: rest' =>
        let (calls, moreSleeps, res) := attemptLoop gen backoff maxRetries (b :: rest')
        (calls + 1, sleeps ++ moreSleeps, res)

/-- `LLMClient._call_provider`: up to `max_retries + 1` attempts with
exponential back-off `retry_backoff_s * 2 ** attempt`, re-raising the
last error when every attempt fails. -/
def call_provider (gen : Nat → Except String String) (maxRetries : Nat) (backoff : Rat) :
    Nat × List Rat × Except String String :=
  attemptLoop gen backoff maxRetries (List.range (maxRetries + 1))

-- ----------------------------------------------------------------------
-- mvp/app/prompts.py and mvp/app/templates.py

mutual
/-- Rendering of a schema back to its Python-dict shape, for embedding
in prompts (`json.dumps(schema, ...)`). -/
def schemaJVal : JSchema → JVal
  | .jstr none => .obj [("type", .str "string")]
  | .jstr (some m) => .obj [("type", .str "string"), ("maxLength", .int m)]
  | .jint none => .obj [("type", .str "integer")]
  | .jint (some m) => .obj [("type", .str "integer"), ("minimum", .int m)]
  | .jarrStr => .obj [("type", .str "array"), ("items", .obj [("type", .str "string")])]
  | .jobj req props => .obj
      ([("type", .str "object")] ++
       (if req.isEmpty then [] else [("required", .arr (req.map .str))]) ++
       [("properties", .obj (schemaJValFields props)),
        ("additionalProperties", .bool true)])

def schemaJValFields : List (String × JSchema) → List (String × JVal)
  | [] => []
  | (k, sch) :: rest => (k, schemaJVal sch) :: schemaJValFields rest
end

/-- `build_generation_prompt` of `mvp/app/prompts.py`.  The exact
instruction header and the `indent=2` pretty-printing of the embedded
payload/schema dumps are abbreviated by the compact serializer: the
prompt string flows only into the (universally quantified) provider
transport, so no claim below observes its text. -/
def build_generation_prompt (document_type : String) (payload : JDict) (schema : JSchema)
    (clinical_context : String) : String :=
  "Você é um(a) médico(a) redator(a) que gera documentos clínicos estruturados no Brasil." ++
  " [regras de redação]" ++
  "\n\nTIPO_DOCUMENTO: " ++ document_type ++
  "\nCONTEXTO CLÍNICO:\n" ++ clinical_context ++
  "\n\nDADOS ESTRUTURADOS:\n" ++ pyJsonDumps (.obj payload) ++
  "\n\nSCHEMA JSON:\n" ++ pyJsonDumps (schemaJVal schema) ++
  "\nFinalize seguindo o formato exigido."

/-- `render_prompt` of `mvp/app/templates.py` (`PROMPT_BASE.format`),
with the same abbreviation of the fixed instruction text and of the
`indent=2` dumps as `build_generation_prompt`; the result flows only
into the abstract `generate` collaborator. -/
def render_prompt (_tipo_documento : String) (dados : JDict) (schema_json : JSchema)
    (contexto : String) : String :=
  "\nVocê é um assistente de redação médica que elabora documentos clínicos em português (Brasil)." ++
  " [regras]" ++
  "\n\nCONTEXTO CLÍNICO:\n" ++ contexto ++
  "\n\nDADOS:\n" ++ pyJsonDumps (.obj dados) ++
  "\n\nSCHEMA:\n" ++ pyJsonDumps (schemaJVal schema_json) ++ "\n"

-- ----------------------------------------------------------------------
-- mvp/app/llm.py: _normalize_payload and generate_document

/-- `LLMClient._normalize_payload`: copy the payload, normalizing the
chief complaint (default `""`) and the bullet list (default `None`),
with the `mvp/app/utils.py` normalizers. -/
def llmNormalizePayload (payload : JDict) : Except PErr JDict := do
  let q ← utilsNormalizeText (dictGetD payload "queixa_principal" (.str ""))
  let b ← utilsNormalizeBullets (dictGet payload "bullets")
  .ok (dictSet (dictSet payload "queixa_principal" q) "bullets" b)

/-- The result dict `{"text": ..., "json": ..., "provider": ...}`
built by `LLMClient.generate_document`. -/
structure GenResult where
  text : String
  json : JVal
  provider : String

/-- The `for provider in self._available_providers()` loop of
`LLMClient.generate_document`.  A provider is a name together with a
generate function of the prompt and the attempt index.  Per provider:
call with retries; parse the completion; when the parsed JSON is
truthy, validate it (an invalid document raises and is caught by the
enclosing `except`, advancing to the next provider); a falsy JSON
raises `ValueError("Resposta sem JSON estruturado")`, likewise
advancing.  Returns the per-provider call counts actually performed
and the first successful result, if any. -/
def providerLoop (maxRetries : Nat) (backoff : Rat) (docType : String) (prompt : String) :
    List (String × (String → Nat → Except String String)) →
    List (String × Nat) × Option GenResult
  | [] => ([], none)
  | (name, gen) :: rest =>
    let (calls, _sleeps, res) := call_provider (gen prompt) maxRetries backoff
    match res with
    | .error _ =>
      let (trace, out) := providerLoop maxRetries backoff docType prompt rest
      ((name, calls) :: trace, out)
    | .ok raw =>
      let (text, jsonPayload) := parse_completion raw
      if truthy jsonPayload ∧ (validate_document docType jsonPayload).isOk then
        ([(name, calls)], some ⟨text, jsonPayload, name⟩)
      else
        let (trace, out) := providerLoop maxRetries backoff docType prompt rest
        ((name, calls) :: trace, out)

/-- `LLMClient.generate_document`: cache lookup, provider loop with
retries, deterministic fallback.  Returns the result, the cache after
the call, and the per-provider call-count trace.  The SHA-256 cache
fingerprint is modelled by its pre-image (see `make_cache_key`); a
cached result dict is always truthy (it has three keys), so a cache
hit returns immediately. -/
def generate_document (maxRetries : Nat) (backoff : Rat) (cacheSize : Nat)
    (providers : List (String × (String → Nat → Except String String)))
    (cache : Cache GenResult) (document_type : String) (payload : JDict)
    (clinical_context : String) :
    Except PErr (GenResult × Cache GenResult × List (String × Nat)) := do
  let doc_type := pyUpper document_type
  let normalized_payload ← llmNormalizePayload payload
  let schema ← get_schema doc_type
  let prompt := build_generation_prompt doc_type normalized_payload schema clinical_context
  let cache_key := make_cache_key
    [doc_type, sanitize_text (pyJsonDumpsSorted (.obj normalized_payload))]
    (some [("context", .str clinical_context)])
  match cache_get cache cache_key with
  | (some cached, cache') => .ok (cached, cache', [])
  | (none, cache') =>
    match providerLoop maxRetries backoff doc_type prompt providers with
    | (trace, some result) =>
        .ok (result, cache_set cacheSize cache' cache_key result, trace)
    | (trace, none) => do
        let (texto, json_payload) ← fallback_rule_based doc_type normalized_payload
        let result : GenResult := ⟨texto, json_payload, "fallback"⟩
        .ok (result, cache_set cacheSize cache' cache_key result, trace)

-- ----------------------------------------------------------------------
-- mvp/app/pipeline.py

/-- `_montar_contexto` of `mvp/app/pipeline.py`. -/
def montar_contexto (payload : JDict) : Except PErr String := do
  let pessoa ← ofDictE (getDictOr payload "pessoa")
  let ident ← ofDictE (getDictOr payload "identificacao")
  let sv ← ofDictE (getDictOr payload "sinais_vitais")
  let nome := dictGetD ident "nome" (.str "Paciente")
  let idade := dictGetD pessoa "idade" (.str "não informado")
  let sexo := dictGetD pessoa "sexo" (.str "não informado")
  let queixa := dictGetD payload "queixa_principal" (.str "não informada")
  let pa := dictGetD sv "pa" (.str "não informado")
  let fc := dictGetD sv "fc" (.str "não informado")
  let temp := dictGetD sv "temp" (.str "não informado")
  .ok (String.intercalate " "
    [pyStr nome ++ ", " ++ pyStr sexo ++ ", " ++ pyStr idade ++ " anos.",
     "Queixa principal: " ++ pyStr queixa ++ ".",
     "Sinais vitais: PA " ++ pyStr pa ++ ", FC " ++ pyStr fc ++ " bpm, Temp " ++
       pyStr temp ++ " °C."])

/-- The per-type "minimal repair" block of `processar`
(`mvp/app/pipeline.py` lines 43-67), entered when the generated JSON
fails schema validation: rebuild the object keeping every truthy
provider field and substituting the pipeline's own inline defaults for
the rest (for SOAP: the prose text for `S`, fixed sentences for
`O`/`P`, the normalized chief complaint for `A`, the input
identification).  For the remaining types (PARECER/LAUDO) a falsy
object is replaced wholesale by `{"texto": ..., "identificacao": ...}`
and a truthy one is kept unchanged. -/
def repairJson (tipo texto : String) (dados_norm : JDict) (json_out : JVal) :
    Except PErr JVal :=
  if tipo = "SOAP" then do
    let fs ← asDictE json_out
    .ok (.obj
      [("S", pyOr (dictGet fs "S") (.str texto)),
       ("O", pyOr (dictGet fs "O") (.str "Sem alterações relevantes descritas.")),
       ("A", pyOr (dictGet fs "A") (.arr [dictGetD dados_norm "queixa_principal" (.str "")])),
       ("P", pyOr (dictGet fs "P") (.arr [.str "Orientações gerais e retorno programado."])),
       ("referencias", pyOr (dictGet fs "referencias") (.arr [])),
       ("identificacao",
        pyOr (pyOr (dictGet fs "identificacao") (dictGet dados_norm "identificacao")) (.obj []))])
  else if tipo = "ATESTADO" then do
    let fs ← asDictE json_out
    let d ← ofIntE (pyInt (pyOr (dictGet fs "dias_afastamento")
      (pyOr (dictGet dados_norm "dias_afastamento") (.int 1))))
    .ok (.obj
      [("texto", pyOr (dictGet fs "texto") (.str texto)),
       ("cid", pyOr (dictGet fs "cid") (pyOr (dictGet dados_norm "cid") (.str ""))),
       ("dias_afastamento", .int d),
       ("identificacao",
        pyOr (pyOr (dictGet fs "identificacao") (dictGet dados_norm "identificacao")) (.obj []))])
  else if tipo = "ENCAMINHAMENTO" then do
    let fs ← asDictE json_out
    .ok (.obj
      [("texto", pyOr (dictGet fs "texto") (.str texto)),
       ("especialidade", pyOr (dictGet fs "especialidade")
          (pyOr (dictGet dados_norm "especialidade") (.str ""))),
       ("referencias", pyOr (dictGet fs "referencias") (.arr [])),
       ("identificacao",
        pyOr (pyOr (dictGet fs "identificacao") (dictGet dados_norm "identificacao")) (.obj []))])
  else
    .ok (pyOr json_out (.obj
      [("texto", .str texto),
       ("identificacao", pyOr (dictGet dados_norm "identificacao") (.obj []))]))

/-- The value `{"texto": ..., "json": ..., "alertas": ...}` returned
by `processar`. -/
structure PipeResult where
  texto : String
  json : JVal
  alertas : List String

/-- The document-type resolution of `processar`:
`(payload.get("tipo_documento") or "SOAP").upper()`.  A falsy field
(absent, `None`, `""`, ...) resolves to `"SOAP"`; a truthy non-string
raises `AttributeError` at `.upper()`. -/
def resolveTipo (payload : JDict) : Except PErr String :=
  match pyOr (dictGet payload "tipo_documento") (.str "SOAP") with
  | .str s => Except.ok (pyUpper s)
  | _ => Except.error PErr.attributeError

/-- `processar` of `mvp/app/pipeline.py`, the pipeline entry point.

`pipeline.py` imports `generate` from `mvp/app/llm.py` and `SCHEMAS`
from `mvp/app/schemas.py`; neither name exists in the sources (the
spec describes this as the older half of a design fork whose newer
half is `LLMClient`).  Modelled from the spec: `generate` is the
provider-loop-with-fallback collaborator, `generate(payload) ->
GenerationResult`, which "always returns a result (never raises past
this point)" — here an explicit total function argument from the
rendered prompt and the normalized payload to `(texto, json)`; and
`SCHEMAS` is the five-type Schema Registry, `SCHEMA_MAP`.  The wall
clock (`datetime.now().isoformat(timespec="seconds")`) is the `now`
argument. -/
def processar (generate : String → JDict → String × JVal) (now : String)
    (payload : JDict) : Except PErr PipeResult := do
  let tipo ← resolveTipo payload
  match listLookup SCHEMA_MAP tipo with
  | none => .error (.unsupportedType tipo)
  | some schema => do
    let dados_norm ← normalize_payload payload
    let contexto ← montar_contexto dados_norm
    let prompt := render_prompt tipo dados_norm schema contexto
    let (texto, json_out0) := generate prompt dados_norm
    let json_out ←
      if validates schema json_out0 then pure json_out0
      else do
        let repaired ← repairJson tipo texto dados_norm json_out0
        if validates schema repaired then pure repaired
        else .error .validationError
    let fsOut ← asDictE json_out
    let alertas ← validar_regras tipo fsOut dados_norm
    let meta : JVal := .obj [("gerado_em", .str now), ("tipo_documento", .str tipo)]
    .ok ⟨texto, .obj (dictSet fsOut "_meta" meta), alertas⟩

-- ----------------------------------------------------------------------
-- Observation helpers used by the statements below

/-- Field lookup on an object value (`none` on non-objects). -/
def objLookup (v : JVal) (k : String) : Option JVal :=
  match v with
  | .obj fs => pyLookup fs k
  | _ => none

/-- One operation against the response cache. -/
inductive CacheOp (α : Type) where
  | get (k : String) : CacheOp α
  | set (k : String) (v : α) : CacheOp α

/-- The cache state after one `_cache_get`/`_cache_set`. -/
def applyOp {α : Type} (size : Nat) (c : Cache α) : CacheOp α → Cache α
  | .get k => (cache_get c k).2
  | .set k v => cache_set size c k v

/-- The cache state after a sequence of operations. -/
def applyOps {α : Type} (size : Nat) (ops : List (CacheOp α)) (c : Cache α) : Cache α :=
  ops.foldl (applyOp size) c

/-- The `.set` operations writing the given pairs, in order. -/
def setOps {α : Type} (pairs : List (String × α)) : List (CacheOp α) :=
  pairs.map (fun p => .set p.1 p.2)

-- ======================================================================
-- Shared lemmas

theorem pyLookup_dictSet (d : JDict) (k : String) (v : JVal) :
    pyLookup (dictSet d k v) k = some v := by
  induction d with
  | nil => simp [dictSet, pyLookup]
  | cons p rest ih =>
      by_cases h : p.1 = k
      · simp [dictSet, h, pyLookup]
      · obtain ⟨k', v'⟩ := p
        simp only at h
        simp [dictSet, h, pyLookup, ih]

theorem listLookup_eq_none_iff {α : Type} (c : List (String × α)) (k : String) :
    listLookup c k = none ↔ ∀ p ∈ c, p.1 ≠ k := by
  induction c with
  | nil => simp [listLookup]
  | cons p rest ih =>
      by_cases h : p.1 = k
      · simp [listLookup, h]
      · simp [listLookup, h, ih]

theorem listLookup_append_of_none {α : Type} (c d : List (String × α)) (k : String)
    (h : listLookup c k = none) : listLookup (c ++ d) k = listLookup d k := by
  induction c with
  | nil => simp
  | cons p rest ih =>
      by_cases hp : p.1 = k
      · simp [listLookup, hp] at h
      · simp only [listLookup, hp, if_false, List.cons_append] at h ⊢
        exact ih h

theorem pyFindAux_none_shift (pat : List Char) (cs : List Char) (i j : Nat)
    (h : pyFindAux pat cs i = none) : pyFindAux pat cs j = none := by
  induction cs generalizing i j with
  | nil =>
      unfold pyFindAux at h ⊢
      split at h
      · exact absurd h (by simp)
      · split
        · simp_all
        · rfl
  | cons c rest ih =>
      unfold pyFindAux at h ⊢
      split at h
      · exact absurd h (by simp)
      · rename_i hpre
        rw [if_neg hpre]
        exact ih (i + 1) (j + 1) h

theorem pyReplaceAux_of_find_none (pat rep : List Char) (cs : List Char)
    (h : pyFindAux pat cs 0 = none) :
    ∀ fuel, pyReplaceAux pat rep fuel cs = cs := by
  induction cs with
  | nil => intro fuel; cases fuel <;> rfl
  | cons c rest ih =>
      intro fuel
      unfold pyFindAux at h
      split at h
      · exact absurd h (by simp)
      · rename_i hpre
        cases fuel with
        | zero => rfl
        | succ fuel =>
            unfold pyReplaceAux
            rw [if_neg (by simp [hpre])]
            rw [ih (pyFindAux_none_shift pat rest 1 0 h) fuel]

theorem pyReplace_of_not_contains (s pat rep : String)
    (h : pyContains s pat = false) : pyReplace s pat rep = s := by
  have hfind : pyFindAux pat.toList s.toList 0 = none := by
    unfold pyContains pyFind at h
    cases hf : pyFindAux pat.toList s.toList 0 with
    | none => rfl
    | some i => rw [hf] at h; simp at h
  unfold pyReplace
  rw [pyReplaceAux_of_find_none pat.toList rep.toList s.toList hfind]
  rfl

-- The error raised by the unsupported-type check is raised nowhere
-- else: every other component of the pipeline returns errors of other
-- classes.

theorem bind_ne_unsup {α β : Type} {e : Except PErr α} {f : α → Except PErr β}
    (he : ∀ m, e ≠ .error (.unsupportedType m))
    (hf : ∀ a m, f a ≠ .error (.unsupportedType m)) :
    ∀ m, (e >>= f) ≠ .error (.unsupportedType m) := by
  intro m h
  cases e with
  | error err =>
      exact he m (by simpa [Bind.bind, Except.bind] using h)
  | ok a =>
      exact hf a m (by simpa [Bind.bind, Except.bind] using h)

theorem ofDictE_ne_unsup (o : Option JDict) (m : String) :
    ofDictE o ≠ .error (.unsupportedType m) := by
  cases o <;> simp [ofDictE]

theorem asDictE_ne_unsup (v : JVal) (m : String) :
    asDictE v ≠ .error (.unsupportedType m) := by
  cases v <;> simp [asDictE]

theorem ofIntE_ne_unsup (o : Option Int) (m : String) :
    ofIntE o ≠ .error (.unsupportedType m) := by
  cases o <;> simp [ofIntE]

theorem digitsOfV_ne_unsup (v : JVal) (m : String) :
    digitsOfV v ≠ .error (.unsupportedType m) := by
  cases v <;> simp [digitsOfV]

theorem idAlerts_ne_unsup (v : JVal) (n : Nat) (msg m : String) :
    idAlerts v n msg ≠ .error (.unsupportedType m) := by
  unfold idAlerts
  split
  · exact bind_ne_unsup (fun m => digitsOfV_ne_unsup v m)
      (fun a m => by simp [pure, Except.pure]) m
  · simp [pure, Except.pure]

theorem validar_regras_ne_unsup (tipo : String) (saida entrada : JDict) (m : String) :
    validar_regras tipo saida entrada ≠ .error (.unsupportedType m) := by
  unfold validar_regras
  cases hg : getDictOr entrada "sinais_vitais" with
  | none => simp [Bind.bind, Except.bind]
  | some vitais =>
      simp only [Bind.bind, Except.bind]
      cases hident : pyOr (pyOr (dictGet saida "identificacao") (dictGet entrada "identificacao"))
        (JVal.obj []) <;> try simp
      case obj fs =>
        apply bind_ne_unsup (fun m => idAlerts_ne_unsup _ _ _ m)
        intro a2 m₃
        apply bind_ne_unsup (fun m => idAlerts_ne_unsup _ _ _ m)
        intro a3 m₄
        simp [pure, Except.pure]

theorem normalizerNormalizeText_ne_unsup (v : JVal) (m : String) :
    normalizerNormalizeText v ≠ .error (.unsupportedType m) := by
  unfold normalizerNormalizeText
  split
  · simp
  · cases v <;> simp

theorem mapME_ne_unsup {α : Type} (g : α → Except PErr JVal)
    (hg : ∀ x m, g x ≠ .error (.unsupportedType m)) (xs : List α) :
    ∀ m, mapME g xs ≠ .error (.unsupportedType m) := by
  induction xs with
  | nil => simp [mapME]
  | cons x rest ih =>
      unfold mapME
      apply bind_ne_unsup (fun m => hg x m)
      intro y m'
      apply bind_ne_unsup ih
      intro ys m''
      simp

theorem normalizerNormalizeBullets_ne_unsup (v : JVal) (m : String) :
    normalizerNormalizeBullets v ≠ .error (.unsupportedType m) := by
  unfold normalizerNormalizeBullets
  split
  · simp
  · cases v with
    | arr xs =>
        apply bind_ne_unsup
          (mapME_ne_unsup _ (fun x m => normalizerNormalizeText_ne_unsup x m) _)
        intro items m'; simp
    | str s =>
        apply bind_ne_unsup
          (mapME_ne_unsup _ (fun x m => normalizerNormalizeText_ne_unsup x m) _)
        intro items m'; simp
    | obj fs =>
        apply bind_ne_unsup
          (mapME_ne_unsup _ (fun x m => normalizerNormalizeText_ne_unsup x m) _)
        intro items m'; simp
    | null => simp
    | bool b => simp
    | int n => simp
    | float q => simp

theorem normalize_payload_ne_unsup (payload : JDict) (m : String) :
    normalize_payload payload ≠ .error (.unsupportedType m) := by
  unfold normalize_payload
  apply bind_ne_unsup (fun m => normalizerNormalizeText_ne_unsup _ m)
  intro q m'
  apply bind_ne_unsup (fun m => normalizerNormalizeBullets_ne_unsup _ m)
  intro b m''
  simp

theorem montar_contexto_ne_unsup (payload : JDict) (m : String) :
    montar_contexto payload ≠ .error (.unsupportedType m) := by
  unfold montar_contexto
  apply bind_ne_unsup (fun m => ofDictE_ne_unsup _ m)
  intro pessoa m'
  apply bind_ne_unsup (fun m => ofDictE_ne_unsup _ m)
  intro ident m''
  apply bind_ne_unsup (fun m => ofDictE_ne_unsup _ m)
  intro sv m₃
  simp

theorem repairJson_ne_unsup (tipo texto : String) (dn : JDict) (j : JVal) (m : String) :
    repairJson tipo texto dn j ≠ .error (.unsupportedType m) := by
  unfold repairJson
  split
  · apply bind_ne_unsup (fun m => asDictE_ne_unsup _ m)
    intro fs m'; simp
  · split
    · apply bind_ne_unsup (fun m => asDictE_ne_unsup _ m)
      intro fs m'
      apply bind_ne_unsup (fun m => ofIntE_ne_unsup _ m)
      intro d m''; simp
    · split
      · apply bind_ne_unsup (fun m => asDictE_ne_unsup _ m)
        intro fs m'; simp
      · simp


theorem processar_unsupported_of_not_found (g : String → JDict → String × JVal)
    (now : String) (payload : JDict) (t : String)
    (ht : resolveTipo payload = .ok t) (hlk : listLookup SCHEMA_MAP t = none) :
    processar g now payload = .error (.unsupportedType t) := by
  unfold processar
  rw [ht]
  simp only [Bind.bind, Except.bind]
  rw [hlk]

theorem processar_ne_unsup (g : String → JDict → String × JVal)
    (now : String) (payload : JDict) (t : String) (schema : JSchema)
    (ht : resolveTipo payload = .ok t) (hlk : listLookup SCHEMA_MAP t = some schema)
    (m : String) :
    processar g now payload ≠ .error (.unsupportedType m) := by
  intro h
  unfold processar at h
  rw [ht] at h
  simp only [Bind.bind, Except.bind] at h
  rw [hlk] at h
  dsimp only at h
  cases hdn : normalize_payload payload with
  | error e =>
      rw [hdn] at h
      dsimp only at h
      simp only [Except.error.injEq] at h
      exact normalize_payload_ne_unsup payload m (hdn.trans (by rw [h]))
  | ok dados_norm =>
    rw [hdn] at h
    dsimp only at h
    cases hctx : montar_contexto dados_norm with
    | error e =>
        rw [hctx] at h
        dsimp only at h
        simp only [Except.error.injEq] at h
        exact montar_contexto_ne_unsup dados_norm m (hctx.trans (by rw [h]))
    | ok contexto =>
      rw [hctx] at h
      dsimp only at h
      rcases hg : g (render_prompt t dados_norm schema contexto) dados_norm with ⟨texto, j0⟩
      rw [hg] at h
      dsimp only at h
      split at h
      · simp only [pure, Except.pure] at h
        cases hfs : asDictE j0 with
        | error e =>
            rw [hfs] at h
            dsimp only at h
            simp only [Except.error.injEq] at h
            exact asDictE_ne_unsup j0 m (hfs.trans (by rw [h]))
        | ok fsOut =>
          rw [hfs] at h
          dsimp only at h
          cases hal : validar_regras t fsOut dados_norm with
          | error e =>
              rw [hal] at h
              dsimp only at h
              simp only [Except.error.injEq] at h
              exact validar_regras_ne_unsup t fsOut dados_norm m (hal.trans (by rw [h]))
          | ok alertas => rw [hal] at h; simp at h
      · cases hrep : repairJson t texto dados_norm j0 with
        | error e =>
            rw [hrep] at h
            dsimp only at h
            simp only [Except.error.injEq] at h
            exact repairJson_ne_unsup t texto dados_norm j0 m (hrep.trans (by rw [h]))
        | ok rep =>
          rw [hrep] at h
          dsimp only at h
          split at h
          · simp only [pure, Except.pure] at h
            cases hfs : asDictE rep with
            | error e =>
                rw [hfs] at h
                dsimp only at h
                simp only [Except.error.injEq] at h
                exact asDictE_ne_unsup rep m (hfs.trans (by rw [h]))
            | ok fsOut =>
              rw [hfs] at h
              dsimp only at h
              cases hal : validar_regras t fsOut dados_norm with
              | error e =>
                  rw [hal] at h
                  dsimp only at h
                  simp only [Except.error.injEq] at h
                  exact validar_regras_ne_unsup t fsOut dados_norm m (hal.trans (by rw [h]))
              | ok alertas => rw [hal] at h; simp at h
          · simp at h

theorem processar_ok_meta (g : String → JDict → String × JVal)
    (now : String) (payload : JDict) (t : String) (r : PipeResult)
    (ht : resolveTipo payload = .ok t) (hr : processar g now payload = .ok r) :
    objLookup r.json "_meta" =
      some (.obj [("gerado_em", .str now), ("tipo_documento", .str t)]) := by
  unfold processar at hr
  rw [ht] at hr
  simp only [Bind.bind, Except.bind] at hr
  cases hlk : listLookup SCHEMA_MAP t with
  | none => rw [hlk] at hr; simp at hr
  | some schema =>
    rw [hlk] at hr
    dsimp only at hr
    cases hdn : normalize_payload payload with
    | error e => rw [hdn] at hr; simp at hr
    | ok dados_norm =>
      rw [hdn] at hr
      dsimp only at hr
      cases hctx : montar_contexto dados_norm with
      | error e => rw [hctx] at hr; simp at hr
      | ok contexto =>
        rw [hctx] at hr
        dsimp only at hr
        rcases hg : g (render_prompt t dados_norm schema contexto) dados_norm with ⟨texto, j0⟩
        rw [hg] at hr
        dsimp only at hr
        split at hr
        · simp only [pure, Except.pure] at hr
          cases hfs : asDictE j0 with
          | error e => rw [hfs] at hr; simp at hr
          | ok fsOut =>
            rw [hfs] at hr
            dsimp only at hr
            cases hal : validar_regras t fsOut dados_norm with
            | error e => rw [hal] at hr; simp at hr
            | ok alertas =>
              rw [hal] at hr
              dsimp only at hr
              simp only [Except.ok.injEq] at hr
              subst hr
              simp [objLookup, pyLookup_dictSet]
        · cases hrep : repairJson t texto dados_norm j0 with
          | error e => rw [hrep] at hr; simp at hr
          | ok rep =>
            rw [hrep] at hr
            dsimp only at hr
            split at hr
            · simp only [pure, Except.pure] at hr
              cases hfs : asDictE rep with
              | error e => rw [hfs] at hr; simp at hr
              | ok fsOut =>
                rw [hfs] at hr
                dsimp only at hr
                cases hal : validar_regras t fsOut dados_norm with
                | error e => rw [hal] at hr; simp at hr
                | ok alertas =>
                  rw [hal] at hr
                  dsimp only at hr
                  simp only [Except.ok.injEq] at hr
                  subst hr
                  simp [objLookup, pyLookup_dictSet]
            · simp at hr



theorem processar_repair_propagates (g : String → JDict → String × JVal)
    (now : String) (payload : JDict) (t : String) (schema : JSchema)
    (dados_norm : JDict) (contexto texto : String) (j0 rep : JVal)
    (ht : resolveTipo payload = .ok t) (hlk : listLookup SCHEMA_MAP t = some schema)
    (hdn : normalize_payload payload = .ok dados_norm)
    (hctx : montar_contexto dados_norm = .ok contexto)
    (hg : g (render_prompt t dados_norm schema contexto) dados_norm = (texto, j0))
    (hv : validates schema j0 = false)
    (hrep : repairJson t texto dados_norm j0 = .ok rep)
    (hrv : validates schema rep = false) :
    processar g now payload = .error .validationError := by
  unfold processar
  rw [ht]
  simp only [Bind.bind, Except.bind]
  rw [hlk]
  dsimp only
  rw [hdn]
  dsimp only
  rw [hctx]
  dsimp only
  rw [hg]
  dsimp only
  rw [if_neg (by simp [hv])]
  rw [hrep]
  dsimp only
  rw [if_neg (by simp [hrv])]

-- Cache lemmas

theorem moveToEnd_length_le {α : Type} (c : Cache α) (k : String) :
    (moveToEnd c k).length ≤ c.length := by
  unfold moveToEnd
  cases hl : listLookup c k with
  | none => simp
  | some v =>
      simp only [List.length_append, List.length_cons, List.length_nil]
      have hmem : ∃ p ∈ c, p.1 = k := by
        by_contra hcon
        push_neg at hcon
        rw [(listLookup_eq_none_iff c k).mpr hcon] at hl
        simp at hl
      obtain ⟨p, hp, hpk⟩ := hmem
      have : (c.filter (fun p => p.1 ≠ k)).length < c.length := by
        apply List.length_filter_lt_length_iff_exists.mpr
        exact ⟨p, hp, by simp [hpk]⟩
      omega

theorem popWhileOver_length_le {α : Type} (size : Nat) (c : Cache α) :
    (popWhileOver size c).length ≤ size := by
  induction c with
  | nil => simp [popWhileOver]
  | cons x xs ih =>
      unfold popWhileOver
      split
      · exact ih
      · rename_i hle
        simp only [List.length_cons]
        omega

theorem popWhileOver_of_le {α : Type} (size : Nat) (c : Cache α)
    (h : c.length ≤ size) : popWhileOver size c = c := by
  cases c with
  | nil => rfl
  | cons x xs =>
      unfold popWhileOver
      rw [if_neg]
      simpa using h

theorem popWhileOver_of_one_over {α : Type} (size : Nat) (c : Cache α)
    (h : c.length = size + 1) : popWhileOver size c = c.tail := by
  cases c with
  | nil => simp at h
  | cons x xs =>
      unfold popWhileOver
      rw [if_pos (by simp at h; omega)]
      exact popWhileOver_of_le size xs (by simp at h; omega)

theorem cache_set_length_le {α : Type} (size : Nat) (c : Cache α) (k : String) (v : α) :
    (cache_set size c k v).length ≤ size := by
  unfold cache_set
  exact popWhileOver_length_le size _

theorem cache_get_length {α : Type} (c : Cache α) (k : String) :
    ((cache_get c k).2).length ≤ c.length := by
  unfold cache_get
  cases hl : listLookup c k with
  | none => simp
  | some v => exact moveToEnd_length_le c k

theorem applyOps_length_le {α : Type} (size : Nat) (ops : List (CacheOp α)) (c : Cache α)
    (h : c.length ≤ size) : (applyOps size ops c).length ≤ size := by
  induction ops generalizing c with
  | nil => simpa [applyOps] using h
  | cons op rest ih =>
      show (applyOps size rest (applyOp size c op)).length ≤ size
      apply ih
      cases op with
      | get k => exact le_trans (cache_get_length c k) h
      | set k v => exact cache_set_length_le size c k v

theorem odAssign_fresh {α : Type} (c : Cache α) (k : String) (v : α)
    (h : listLookup c k = none) : odAssign c k v = c ++ [(k, v)] := by
  unfold odAssign
  rw [h]
  simp

theorem filter_ne_of_not_key {α : Type} (c : Cache α) (k : String)
    (h : listLookup c k = none) : c.filter (fun p => p.1 ≠ k) = c := by
  apply List.filter_eq_self.mpr
  intro p hp
  simpa using (listLookup_eq_none_iff c k).mp h p hp

theorem moveToEnd_append_fresh {α : Type} (c : Cache α) (k : String) (v : α)
    (h : listLookup c k = none) : moveToEnd (c ++ [(k, v)]) k = c ++ [(k, v)] := by
  unfold moveToEnd
  rw [listLookup_append_of_none c [(k, v)] k h]
  simp only [listLookup, if_pos rfl]
  rw [List.filter_append, filter_ne_of_not_key c k h]
  simp

theorem cache_set_fresh {α : Type} (size : Nat) (c : Cache α) (k : String) (v : α)
    (h : listLookup c k = none) :
    cache_set size c k v = popWhileOver size (c ++ [(k, v)]) := by
  unfold cache_set
  rw [odAssign_fresh c k v h, moveToEnd_append_fresh c k v h]

theorem applyOps_setOps_fresh {α : Type} (size : Nat) (pairs : List (String × α))
    (c : Cache α) (hnd : (c.map Prod.fst ++ pairs.map Prod.fst).Nodup)
    (hlen : c.length + pairs.length ≤ size) :
    applyOps size (setOps pairs) c = c ++ pairs := by
  induction pairs generalizing c with
  | nil => simp [applyOps, setOps]
  | cons p rest ih =>
      have hfresh : listLookup c p.1 = none := by
        apply (listLookup_eq_none_iff c p.1).mpr
        intro q hq
        have hdisj := List.disjoint_of_nodup_append hnd
        intro hcon
        exact hdisj (List.mem_map_of_mem Prod.fst hq) (by simp [← hcon])
      have hlen' : c.length + (rest.length + 1) ≤ size := by simpa using hlen
      show applyOps size (setOps rest) (cache_set size c p.1 p.2) = c ++ p :: rest
      rw [cache_set_fresh size c p.1 p.2 hfresh,
        popWhileOver_of_le size _ (by simp; omega)]
      have : (List.map Prod.fst (c ++ [p]) ++ List.map Prod.fst rest).Nodup := by
        simpa using hnd
      rw [ih (c ++ [p]) this (by simp; omega)]
      simp



theorem attemptLoop_all_fail (gen : Nat → Except String String) (backoff : Rat)
    (maxRetries : Nat) (e : Nat → String) (hgen : ∀ i, gen i = .error (e i)) :
    ∀ k a, a + k = maxRetries + 1 → 1 ≤ k →
      attemptLoop gen backoff maxRetries (List.range' a k) =
        (k, (List.range' a (k - 1)).map (fun i => backoff * 2 ^ i), .error (e maxRetries)) := by
  intro k
  induction k with
  | zero => omega
  | succ k ih =>
      intro a hak _
      cases k with
      | zero =>
          have ha : a = maxRetries := by omega
          rw [List.range'_one]
          unfold attemptLoop
          rw [hgen a]
          dsimp only
          rw [if_neg (by omega)]
          simp [ha]
      | succ k =>
          have hlt : a < maxRetries := by omega
          have hrest : List.range' (a + 1) (k + 1) = (a + 1) :: List.range' (a + 2) k :=
            List.range'_succ (a + 1) k 1
          rw [List.range'_succ a (k + 1) 1]
          unfold attemptLoop
          rw [hgen a]
          dsimp only
          rw [hrest]
          dsimp only
          rw [← hrest]
          rw [ih (a + 1) (by omega) (by omega)]
          dsimp only
          rw [if_pos hlt]
          refine Prod.ext rfl (Prod.ext ?_ rfl)
          show backoff * 2 ^ a :: List.map (fun i => backoff * 2 ^ i) (List.range' (a + 1) k) =
            List.map (fun i => backoff * 2 ^ i) (List.range' a (k + 1))
          rw [List.range'_succ a k 1]
          simp

theorem call_provider_all_fail (gen : Nat → Except String String) (backoff : Rat)
    (maxRetries : Nat) (e : Nat → String) (hgen : ∀ i, gen i = .error (e i)) :
    call_provider gen maxRetries backoff =
      (maxRetries + 1, (List.range maxRetries).map (fun i => backoff * 2 ^ i),
        .error (e maxRetries)) := by
  unfold call_provider
  rw [List.range_eq_range']
  rw [attemptLoop_all_fail gen backoff maxRetries e hgen (maxRetries + 1) 0 (by omega) (by omega)]
  rw [List.range_eq_range']
  simp



theorem providerLoop_all_fail (maxRetries : Nat) (backoff : Rat) (docType prompt : String)
    (providers : List (String × (String → Nat → Except String String)))
    (hfail : ∀ p ∈ providers, ∀ pr i, ∃ er, p.2 pr i = .error er) :
    providerLoop maxRetries backoff docType prompt providers =
      (providers.map (fun p => (p.1, maxRetries + 1)), none) := by
  induction providers with
  | nil => rfl
  | cons p rest ih =>
      obtain ⟨name, gen⟩ := p
      have hf : ∀ i, ∃ er, gen prompt i = .error er := by
        intro i
        exact hfail (name, gen) (List.mem_cons_self _ _) prompt i
      have hgen : ∀ i, gen prompt i = Except.error ((fun j => (hf j).choose) i) :=
        fun i => (hf i).choose_spec
      unfold providerLoop
      rw [call_provider_all_fail (gen prompt) backoff maxRetries (fun j => (hf j).choose) hgen]
      dsimp only
      rw [ih (fun q hq pr i => hfail q (List.mem_cons_of_mem _ hq) pr i)]
      simp

theorem generate_document_all_fail (maxRetries : Nat) (backoff : Rat) (cacheSize : Nat)
    (providers : List (String × (String → Nat → Except String String))) (ctx : String)
    (hfail : ∀ p ∈ providers, ∀ pr i, ∃ er, p.2 pr i = .error er) :
    (match generate_document maxRetries backoff cacheSize providers [] "SOAP" [] ctx with
     | .ok (r, _, trace) =>
        r.provider = "fallback" ∧
        trace = providers.map (fun p => (p.1, maxRetries + 1)) ∧
        fallback_rule_based "SOAP" [("queixa_principal", .str ""), ("bullets", .arr [])] =
          .ok (r.text, r.json)
     | .error _ => False) := by
  unfold generate_document
  simp only [Bind.bind, Except.bind]
  rw [show llmNormalizePayload [] =
    Except.ok [("queixa_principal", JVal.str ""), ("bullets", JVal.arr [])] from rfl]
  dsimp only
  rw [show pyUpper "SOAP" = "SOAP" from rfl]
  rw [show get_schema "SOAP" = Except.ok SOAP_SCHEMA from rfl]
  dsimp only
  have hcg : ∀ k : String, cache_get ([] : Cache GenResult) k = (none, []) := fun k => rfl
  rw [hcg]
  dsimp only
  rw [providerLoop_all_fail maxRetries backoff "SOAP" _ providers hfail]
  dsimp only
  cases hfb : fallback_rule_based "SOAP"
      [("queixa_principal", JVal.str ""), ("bullets", JVal.arr [])] with
  | error e =>
      have hok : (fallback_rule_based "SOAP"
          [("queixa_principal", JVal.str ""), ("bullets", JVal.arr [])]).isOk = true := rfl
      rw [hfb] at hok
      simp [Except.isOk, Except.toBool] at hok
  | ok p =>
      dsimp only
      exact ⟨rfl, rfl, rfl⟩




theorem idAlerts_ok_cases (v : JVal) (n : Nat) (msg : String) (l : List String)
    (h : idAlerts v n msg = .ok l) : l = [] ∨ l = [msg] := by
  unfold idAlerts at h
  split at h
  · cases hd : digitsOfV v with
    | error e => rw [hd] at h; simp [Bind.bind, Except.bind] at h
    | ok ds =>
        rw [hd] at h
        simp only [Bind.bind, Except.bind, pure, Except.pure, Except.ok.injEq] at h
        subst h
        split
        · right; rfl
        · left; rfl
  · simp only [pure, Except.pure, Except.ok.injEq] at h
    subst h
    left; rfl

theorem mem_tempAlerts (vitais : JDict) (x : String) (h : x ∈ tempAlerts vitais) :
    x = "Temperatura fora de faixa plausível (30–43 °C)." := by
  unfold tempAlerts at h
  split at h
  · simp at h
  · split at h
    · split at h
      · simpa using h
      · simp at h
    · simp at h

theorem atestado_cid_mem (saida : JDict) :
    ("Atestado sem CID informado." ∈ atestadoAlerts saida) ↔
      truthy (dictGet saida "cid") = false := by
  unfold atestadoAlerts
  have hd1 : ∀ x ∈ (match dictGet saida "dias_afastamento" with
      | .null => ["Atestado sem 'dias_afastamento'."]
      | dias =>
        match pyInt dias with
        | none => ["Dias de afastamento inválido (não numérico)."]
        | some d => if d < 1 ∨ d > 30 then ["Dias de afastamento fora do intervalo usual (1–30)."] else []),
      x ≠ "Atestado sem CID informado." := by
    intro x hx
    split at hx
    · simp at hx; subst hx; decide
    · split at hx
      · simp at hx; subst hx; decide
      · split at hx
        · simp at hx; subst hx; decide
        · simp at hx
  constructor
  · intro h
    rcases List.mem_append.mp h with h1 | h2
    · exact absurd rfl (hd1 _ h1)
    · by_contra hcon
      rw [if_neg (by simpa using hcon)] at h2
      simp at h2
  · intro h
    apply List.mem_append.mpr
    right
    rw [if_pos (by simp [h])]
    simp

theorem validar_regras_atestado_cid (saida entrada : JDict) (alerts : List String)
    (h : validar_regras "ATESTADO" saida entrada = .ok alerts) :
    ("Atestado sem CID informado." ∈ alerts) ↔ truthy (dictGet saida "cid") = false := by
  unfold validar_regras at h
  cases hg : getDictOr entrada "sinais_vitais" with
  | none => rw [hg] at h; simp [Bind.bind, Except.bind] at h
  | some vitais =>
    rw [hg] at h
    simp only [Bind.bind, Except.bind] at h
    cases hident : pyOr (pyOr (dictGet saida "identificacao") (dictGet entrada "identificacao"))
        (JVal.obj []) with
    | obj fs =>
        rw [hident] at h
        dsimp only at h
        cases ha2 : idAlerts (pyOr (dictGet fs "cpf") (JVal.str "")) 11
            "CPF com formato/quantidade de dígitos inválido (esperado: 11)." with
        | error e => rw [ha2] at h; dsimp only at h; simp at h
        | ok a2 =>
          rw [ha2] at h
          dsimp only at h
          cases ha3 : idAlerts (pyOr (dictGet fs "cns") (JVal.str "")) 15
              "CNS com formato/quantidade de dígitos inválido (esperado: 15)." with
          | error e => rw [ha3] at h; dsimp only at h; simp at h
          | ok a3 =>
            rw [ha3] at h
            dsimp only at h
            rw [if_pos trivial] at h
            simp only [Except.ok.injEq] at h
            subst h
            have h2 := idAlerts_ok_cases _ _ _ _ ha2
            have h3 := idAlerts_ok_cases _ _ _ _ ha3
            have hcid := atestado_cid_mem saida
            constructor
            · intro hmem
              simp only [List.append_assoc, List.mem_append] at hmem
              rcases hmem with h1 | hmem
              · exact absurd (mem_tempAlerts vitais _ h1) (by decide)
              rcases hmem with hA | hmem
              · rcases h2 with rfl | rfl
                · simp at hA
                · simp at hA
              rcases hmem with hA | hmem
              · rcases h3 with rfl | rfl
                · simp at hA
                · simp at hA
              · exact hcid.mp hmem
            · intro hfalse
              simp only [List.append_assoc, List.mem_append]
              right; right; right
              exact hcid.mpr hfalse
    | null => rw [hident] at h; dsimp only at h; simp at h
    | bool b => rw [hident] at h; dsimp only at h; simp at h
    | int n => rw [hident] at h; dsimp only at h; simp at h
    | float q => rw [hident] at h; dsimp only at h; simp at h
    | str s => rw [hident] at h; dsimp only at h; simp at h
    | arr xs => rw [hident] at h; dsimp only at h; simp at h


-- ======================================================================
-- Claim theorems

/-- C1: the deterministic fallback generator, on the intended-semantics
model of `fallback_rule_based` (the committed source of its PARECER
branch is a Python `SyntaxError`; see the definition's docstring), is
total on the empty payload for every one of the five supported
document types, producing a structured object that validates against
that type's schema and embeds the `identificacao` sub-object; missing
fields are replaced by the "não informado" sentinel, and the
ATESTADO branch defaults to 3 leave-days with the sentinel diagnosis
code.  (As a statement about the committed code, the claim fails:
the module does not even import.) -/
theorem C1_fallback_empty_payload_on_intended_model :
    (SCHEMA_MAP.all fun p =>
      match fallback_rule_based p.1 [] with
      | .ok (_, j) => validates p.2 j && (objLookup j "identificacao").isSome
      | .error _ => false) = true
  ∧ ((fallback_rule_based "ATESTADO" []).toOption.bind fun p =>
      objLookup p.2 "dias_afastamento") = some (.int 3)
  ∧ ((fallback_rule_based "ATESTADO" []).toOption.bind fun p =>
      objLookup p.2 "cid") = some (.str "não informado")
  ∧ ((fallback_rule_based "SOAP" []).toOption.bind fun p =>
      objLookup p.2 "A") = some (.arr [.str "não informado"]) :=
  ⟨rfl, rfl, rfl, rfl⟩

/-- C2 (amended): `processar` raises the input-validation
`ValueError("Tipo de documento não suportado: ...")` exactly when the
resolved document type (the `tipo_documento` field, defaulted to
`"SOAP"` when falsy and upper-cased) is not one of the five recognized
kinds; with a recognized resolved type that error is never raised, for
any provider behaviour.  (As frozen, the claim also said processar
never raises for recognized types; that is refuted by
`C2_counterexample`: a schema-validation failure that survives the
single repair pass propagates.) -/
theorem C2_input_validation_boundary (g : String → JDict → String × JVal)
    (now : String) (payload : JDict) (t : String)
    (ht : resolveTipo payload = .ok t) :
    (listLookup SCHEMA_MAP t = none →
      processar g now payload = .error (.unsupportedType t))
  ∧ (∀ schema, listLookup SCHEMA_MAP t = some schema →
      ∀ m, processar g now payload ≠ .error (.unsupportedType m)) :=
  ⟨fun hlk => processar_unsupported_of_not_found g now payload t ht hlk,
   fun schema hlk m => processar_ne_unsup g now payload t schema ht hlk m⟩

/-- Witness for `C2_input_validation_boundary` at concrete inputs: the
unrecognized type `"FOO"` is rejected with the input-validation error
and the recognized type `"LAUDO"` is never rejected with it. -/
theorem C2_input_validation_boundary_witness :
    processar (fun _ _ => ("", .obj [])) "2026-01-01T00:00:00"
      [("tipo_documento", .str "FOO")] = .error (.unsupportedType "FOO")
  ∧ processar (fun _ _ => ("", .obj [])) "2026-01-01T00:00:00"
      [("tipo_documento", .str "LAUDO")] ≠ .error (.unsupportedType "LAUDO") :=
  ⟨(C2_input_validation_boundary (fun _ _ => ("", .obj [])) "2026-01-01T00:00:00"
      [("tipo_documento", .str "FOO")] "FOO" rfl).1 rfl,
   (C2_input_validation_boundary (fun _ _ => ("", .obj [])) "2026-01-01T00:00:00"
      [("tipo_documento", .str "LAUDO")] "LAUDO" rfl).2 LAUDO_SCHEMA rfl "LAUDO"⟩

/-- C2 counterexample: for the recognized type PARECER, a provider
JSON `{"texto": 5}` fails schema validation, the else-branch repair
keeps the truthy object unchanged, re-validation fails, and
`processar` raises a `ValidationError` — refuting the claim that for
every payload with a recognized document type the entry point returns
a result and never raises. -/
theorem C2_counterexample :
    processar (fun _ _ => ("t", .obj [("texto", .int 5)])) "2026-01-01T00:00:00"
      [("tipo_documento", .str "PARECER")] = .error .validationError := rfl



/-- C3 (amended): when the generated structured object fails schema
validation, `processar` attempts exactly one repair, rebuilding the
object with every truthy provider field preserved unchanged and the
pipeline's own inline defaults substituted for falsy/missing ones (for
SOAP: the prose text for `S`, a fixed sentence for `O`, the normalized
chief complaint for `A`, a fixed single-item plan for `P`) — these
defaults are the repair block's own constants, not content produced by
the fallback generator (refuted as frozen by `C3_counterexample`); if
the repaired object also fails validation, the `ValidationError`
propagates rather than being swallowed. -/
theorem C3_repair_merge_and_propagation :
    (∀ (texto : String) (dn fs : JDict),
      (∀ f, f ∈ (["S", "O", "A", "P", "referencias"] : List String) →
        truthy (dictGet fs f) = true →
        (repairJson "SOAP" texto dn (.obj fs)).toOption.bind (fun r => objLookup r f) =
          some (dictGet fs f))
      ∧ (truthy (dictGet fs "P") = false →
          (repairJson "SOAP" texto dn (.obj fs)).toOption.bind (fun r => objLookup r "P") =
            some (.arr [.str "Orientações gerais e retorno programado."]))
      ∧ (truthy (dictGet fs "S") = false →
          (repairJson "SOAP" texto dn (.obj fs)).toOption.bind (fun r => objLookup r "S") =
            some (.str texto)))
  ∧ (∀ (g : String → JDict → String × JVal) (now : String) (payload : JDict)
      (t : String) (schema : JSchema) (dados_norm : JDict) (contexto texto : String)
      (j0 rep : JVal),
      resolveTipo payload = .ok t → listLookup SCHEMA_MAP t = some schema →
      normalize_payload payload = .ok dados_norm →
      montar_contexto dados_norm = .ok contexto →
      g (render_prompt t dados_norm schema contexto) dados_norm = (texto, j0) →
      validates schema j0 = false →
      repairJson t texto dados_norm j0 = .ok rep →
      validates schema rep = false →
      processar g now payload = .error .validationError) := by
  constructor
  · intro texto dn fs
    refine ⟨?_, ?_, ?_⟩
    · intro f hf hft
      fin_cases hf <;>
        simp [repairJson, asDictE, Except.toOption, objLookup, pyLookup, pyOr, hft,
          Bind.bind, Except.bind]
    · intro hft
      simp [repairJson, asDictE, Except.toOption, objLookup, pyLookup, pyOr, hft,
        Bind.bind, Except.bind]
    · intro hft
      simp [repairJson, asDictE, Except.toOption, objLookup, pyLookup, pyOr, hft,
        Bind.bind, Except.bind]
  · intro g now payload t schema dados_norm contexto texto j0 rep ht hlk hdn hctx hg hv hrep hrv
    exact processar_repair_propagates g now payload t schema dados_norm contexto texto j0 rep
      ht hlk hdn hctx hg hv hrep hrv

/-- Witness for `C3_repair_merge_and_propagation`: a truthy provider
`"S"` survives the repair unchanged, a missing `"P"` receives the
repair's fixed default, and the end-to-end pipeline propagates a
`ValidationError` when the repaired object still fails validation
(the provider emitted `{"S": 5}`, which the repair keeps because `5`
is truthy). -/
theorem C3_repair_merge_and_propagation_witness :
    (repairJson "SOAP" "t" [] (.obj [("S", .str "s")])).toOption.bind
      (fun r => objLookup r "S") = some (.str "s")
  ∧ (repairJson "SOAP" "t" [] (.obj [("S", .str "s")])).toOption.bind
      (fun r => objLookup r "P") =
        some (.arr [.str "Orientações gerais e retorno programado."])
  ∧ processar (fun _ _ => ("t", .obj [("S", .int 5)])) "2026-01-01T00:00:00" [] =
      .error .validationError := by
  refine ⟨?_, ?_, ?_⟩
  · have h := ((C3_repair_merge_and_propagation.1 "t" [] [("S", .str "s")]).1 "S"
      (by decide) rfl)
    simpa using h
  · have h := ((C3_repair_merge_and_propagation.1 "t" [] [("S", .str "s")]).2.1 rfl)
    simpa using h
  · exact C3_repair_merge_and_propagation.2 (fun _ _ => ("t", .obj [("S", .int 5)]))
      "2026-01-01T00:00:00" [] "SOAP" SOAP_SCHEMA _ _ "t" (.obj [("S", .int 5)]) _
      rfl rfl rfl rfl rfl rfl rfl rfl

/-- C3 counterexample: for a provider SOAP output missing the required
`"P"` section, the repaired result's `"P"` is the repair block's own
fixed default, which differs from the `"P"` content the deterministic
fallback generator produces for the same normalized payload — so the
missing section is not "populated from fallback content" as the claim
states. -/
theorem C3_counterexample :
    (match processar (fun _ _ => ("t", .obj [])) "2026-01-01T00:00:00"
        [("tipo_documento", .str "SOAP")] with
     | .ok r => objLookup r.json "P"
     | .error _ => none) = some (.arr [.str "Orientações gerais e retorno programado."])
  ∧ ((fallback_rule_based "SOAP"
        [("tipo_documento", .str "SOAP"), ("queixa_principal", .str ""),
         ("bullets", .arr [])]).toOption.bind fun p => objLookup p.2 "P") =
      some (.arr [.str "Orientações gerais fornecidas", .str "Sinais de alarme esclarecidos",
        .str "Retorno programado conforme disponibilidade"])
  ∧ ("Orientações gerais e retorno programado." : String) ≠ "Orientações gerais fornecidas" :=
  ⟨rfl, rfl, by decide⟩



/-- C4: a provider whose generate call fails on every attempt is
invoked exactly `max_retries + 1` times by `_call_provider`, with
`retry_backoff_s * 2 ^ attempt` slept between consecutive attempts,
and the last error is re-raised; `generate_document` then advances to
the next provider in order (each also attempted `max_retries + 1`
times), and only after every provider is exhausted does it invoke the
deterministic fallback, whose output it returns with provider name
`"fallback"`. -/
theorem C4_retry_backoff_and_fallback :
    (∀ (gen : Nat → Except String String) (backoff : Rat) (maxRetries : Nat)
      (e : Nat → String), (∀ i, gen i = .error (e i)) →
      call_provider gen maxRetries backoff =
        (maxRetries + 1, (List.range maxRetries).map (fun i => backoff * 2 ^ i),
          .error (e maxRetries)))
  ∧ (∀ (maxRetries : Nat) (backoff : Rat) (cacheSize : Nat)
      (providers : List (String × (String → Nat → Except String String))) (ctx : String),
      (∀ p ∈ providers, ∀ pr i, ∃ er, p.2 pr i = .error er) →
      (match generate_document maxRetries backoff cacheSize providers [] "SOAP" [] ctx with
       | .ok (r, _, trace) =>
          r.provider = "fallback" ∧
          trace = providers.map (fun p => (p.1, maxRetries + 1)) ∧
          fallback_rule_based "SOAP" [("queixa_principal", .str ""), ("bullets", .arr [])] =
            .ok (r.text, r.json)
       | .error _ => False)) :=
  ⟨fun gen backoff maxRetries e hgen =>
      call_provider_all_fail gen backoff maxRetries e hgen,
   fun maxRetries backoff cacheSize providers ctx hfail =>
      generate_document_all_fail maxRetries backoff cacheSize providers ctx hfail⟩

/-- Witness for `C4_retry_backoff_and_fallback` at concrete inputs:
with the default configuration (2 retries, back-off 2.0) an
always-failing provider is called exactly 3 times with sleeps
`[2, 4]`, and with one always-failing provider the orchestrator falls
back, reporting 3 attempts for it. -/
theorem C4_retry_backoff_and_fallback_witness :
    call_provider (fun _ => .error "boom") 2 2 = (3, [2, 4], .error "boom")
  ∧ (match generate_document 2 2 64 [("p1", fun _ _ => .error "x")] [] "SOAP" [] "ctx" with
     | .ok (r, _, trace) =>
        r.provider = "fallback" ∧
        trace = ([("p1", fun _ _ => Except.error "x")] :
            List (String × (String → Nat → Except String String))).map (fun p => (p.1, 2 + 1)) ∧
        fallback_rule_based "SOAP" [("queixa_principal", .str ""), ("bullets", .arr [])] =
          .ok (r.text, r.json)
     | .error _ => False) := by
  constructor
  · have h := C4_retry_backoff_and_fallback.1 (fun _ => .error "boom") 2 2
      (fun _ => "boom") (fun _ => rfl)
    have h2 : (List.range 2).map (fun i => (2 : Rat) * 2 ^ i) = [2, 4] := by
      rw [show List.range 2 = [0, 1] from rfl]
      norm_num
    rw [h2] at h
    exact h
  · exact C4_retry_backoff_and_fallback.2 2 2 64 [("p1", fun _ _ => .error "x")] "ctx"
      (by
        intro p hp pr i
        simp only [List.mem_singleton] at hp
        subst hp
        exact ⟨"x", rfl⟩)



/-- C5: `_parse_completion` is total by construction (it is a plain
function of the input string; every string operation it performs is
non-raising and the `json.loads` call is guarded) and follows the
three-step policy: with the `"JSON:"` marker the prose is everything
before it (the `"TEXTO:"` label removed, whitespace stripped) and the
JSON block everything after; else with both braces present the JSON
block spans the first `{` to the last `}`; else the whole (stripped)
input is prose and the structured result is `{}`; an unparsable JSON
block also yields `{}`.  In particular
`"TEXTO:\nfoo\nJSON:\n{\"a\":1}"` parses to `("foo", {"a": 1})`, and a
marker-free brace-free input is returned whole as prose. -/
theorem C5_parse_completion_policy :
    parse_completion "TEXTO:\nfoo\nJSON:\n\x7b\"a\":1\x7d" = ("foo", .obj [("a", .int 1)])
  ∧ (∀ s : String, pyContains s "JSON:" = false →
      (pyContains s "\x7b" && pyContains s "\x7d") = false →
      pyContains s "TEXTO:" = false → pyStrip s = s →
      parse_completion s = (s, .obj []))
  ∧ parse_completion "bla \x7b\"a\": 1\x7d bla" = ("bla", .obj [("a", .int 1)])
  ∧ parse_completion "JSON: not json" = ("", .obj []) := by
  refine ⟨rfl, ?_, rfl, rfl⟩
  intro s h1 h2 h3 h4
  unfold parse_completion
  rw [h1]
  simp only [Bool.false_eq_true, if_false]
  rw [h2]
  simp only [Bool.false_eq_true, if_false]
  rw [pyReplace_of_not_contains s "TEXTO:" "" h3, h4]
  simp

/-- Witness for `C5_parse_completion_policy`: the marker-free,
brace-free input `"no markers at all"` parses to itself as prose with
the empty structured object. -/
theorem C5_parse_completion_policy_witness :
    parse_completion "no markers at all" = ("no markers at all", .obj []) :=
  C5_parse_completion_policy.2.1 "no markers at all" rfl rfl rfl rfl



/-- C6: the response cache keeps its bounded-size invariant — starting
from the empty cache, after any sequence of `_cache_get`/`_cache_set`
operations it holds at most `cache_size` entries — and is
least-recently-used: writing `cache_size + 1` distinct keys into the
empty cache evicts exactly the first (least recently used) entry,
keeping the rest in order; and on a full cache a `_cache_get` of the
oldest entry refreshes its recency, so the next insertion evicts the
second-oldest entry instead and the read entry survives. -/
theorem C6_cache_bounded_and_lru :
    (∀ (α : Type) (size : Nat) (ops : List (CacheOp α)),
      (applyOps size ops ([] : Cache α)).length ≤ size)
  ∧ (∀ (α : Type) (size : Nat) (pairs : List (String × α)),
      pairs.length = size + 1 → (pairs.map Prod.fst).Nodup →
      applyOps size (setOps pairs) ([] : Cache α) = pairs.tail)
  ∧ (∀ (α : Type) (size : Nat) (k : String) (v : α) (rest : Cache α) (k' : String) (v' : α),
      ((k, v) :: rest : Cache α).length = size →
      (((k, v) :: rest).map Prod.fst).Nodup →
      listLookup ((k, v) :: rest) k' = none →
      2 ≤ size →
      applyOps size [.get k, .set k' v'] ((k, v) :: rest) =
        rest.tail ++ [(k, v), (k', v')]) := by
  refine ⟨?_, ?_, ?_⟩
  · intro α size ops
    exact applyOps_length_le size ops [] (by simp)
  · intro α size pairs hlen hnd
    have htd := List.take_append_drop size pairs
    have hdrop : ∃ b, pairs.drop size = [b] := by
      apply List.length_eq_one.mp
      rw [List.length_drop, hlen]
      omega
    obtain ⟨b, hb⟩ := hdrop
    have htake : (pairs.take size).length = size := by
      rw [List.length_take, hlen]
      omega
    have hndkeys : ((pairs.take size).map Prod.fst ++ (pairs.drop size).map Prod.fst).Nodup := by
      rw [← List.map_append, htd]
      exact hnd
    have hA : applyOps size (setOps (pairs.take size)) ([] : Cache α) = pairs.take size := by
      have h := applyOps_setOps_fresh size (pairs.take size) []
        (by simpa using List.Nodup.sublist ((List.take_sublist size pairs).map Prod.fst) hnd)
        (by simp [htake])
      simpa using h
    have hfreshb : listLookup (pairs.take size) b.1 = none := by
      apply (listLookup_eq_none_iff _ _).mpr
      intro q hq
      have hdisj := List.disjoint_of_nodup_append hndkeys
      intro hcon
      refine hdisj (List.mem_map_of_mem Prod.fst hq) ?_
      rw [hb, hcon]
      simp
    calc applyOps size (setOps pairs) ([] : Cache α)
        = applyOps size (setOps (pairs.take size ++ pairs.drop size)) [] := by rw [htd]
      _ = applyOps size (setOps (pairs.take size) ++ setOps (pairs.drop size)) [] := by
          unfold setOps; rw [List.map_append]
      _ = applyOps size (setOps (pairs.drop size)) (applyOps size (setOps (pairs.take size)) []) := by
          unfold applyOps; rw [List.foldl_append]
      _ = applyOps size (setOps [b]) (pairs.take size) := by rw [hA, hb]
      _ = cache_set size (pairs.take size) b.1 b.2 := rfl
      _ = popWhileOver size (pairs.take size ++ [b]) := cache_set_fresh size _ b.1 b.2 hfreshb
      _ = (pairs.take size ++ [b]).tail := by
          apply popWhileOver_of_one_over
          simp [htake]
      _ = pairs.tail := by rw [← hb, htd]
  · intro α size k v rest k' v' hlen hnd hk' hsize
    have hrestk : listLookup rest k = none := by
      apply (listLookup_eq_none_iff _ _).mpr
      intro q hq hcon
      simp only [List.map_cons, List.nodup_cons] at hnd
      exact hnd.1 (hcon ▸ List.mem_map_of_mem Prod.fst hq)
    have hget : applyOp size ((k, v) :: rest) (CacheOp.get k) = rest ++ [(k, v)] := by
      show (cache_get ((k, v) :: rest) k).2 = rest ++ [(k, v)]
      unfold cache_get moveToEnd
      rw [show listLookup ((k, v) :: rest) k = some v by simp [listLookup]]
      simp only [List.filter_cons]
      rw [filter_ne_of_not_key rest k hrestk]
      simp
    have hk'rest : listLookup (rest ++ [(k, v)]) k' = none := by
      have h1 : listLookup rest k' = none := by
        apply (listLookup_eq_none_iff _ _).mpr
        intro q hq
        exact (listLookup_eq_none_iff _ _).mp hk' q (List.mem_cons_of_mem _ hq)
      have hkk' : k ≠ k' := (listLookup_eq_none_iff _ _).mp hk' (k, v) (List.mem_cons_self _ _)
      rw [listLookup_append_of_none rest [(k, v)] k' h1]
      simp [listLookup, hkk']
    show applyOp size (applyOp size ((k, v) :: rest) (CacheOp.get k)) (CacheOp.set k' v') =
      rest.tail ++ [(k, v), (k', v')]
    rw [hget]
    show cache_set size (rest ++ [(k, v)]) k' v' = rest.tail ++ [(k, v), (k', v')]
    rw [cache_set_fresh size _ k' v' hk'rest]
    rw [popWhileOver_of_one_over size _ (by simp at hlen ⊢; omega)]
    cases rest with
    | nil => simp at hlen; omega
    | cons r rs => simp

/-- Witness for `C6_cache_bounded_and_lru` at concrete inputs with
capacity 2: a mixed operation sequence stays within bound; writing
three distinct keys evicts exactly the first; reading the oldest entry
before inserting a fresh key makes the second-oldest the eviction
victim instead. -/
theorem C6_cache_bounded_and_lru_witness :
    (applyOps 2 [CacheOp.set "a" 1, CacheOp.set "b" 2, CacheOp.get "a",
      CacheOp.set "c" 3] ([] : Cache Nat)).length ≤ 2
  ∧ applyOps 2 (setOps [("a", 1), ("b", 2), ("c", 3)]) ([] : Cache Nat) =
      [("b", 2), ("c", 3)]
  ∧ applyOps 2 [CacheOp.get "a", CacheOp.set "c" 3] ([("a", 1), ("b", 2)] : Cache Nat) =
      [("a", 1), ("c", 3)] := by
  refine ⟨?_, ?_, ?_⟩
  · exact C6_cache_bounded_and_lru.1 Nat 2
      [CacheOp.set "a" 1, CacheOp.set "b" 2, CacheOp.get "a", CacheOp.set "c" 3]
  · exact C6_cache_bounded_and_lru.2.1 Nat 2 [("a", 1), ("b", 2), ("c", 3)] rfl (by decide)
  · have h := C6_cache_bounded_and_lru.2.2 Nat 2 "a" 1 [("b", 2)] "c" 3 rfl (by decide)
      (by decide) (by decide)
    simpa using h



/-- C7: the rules engine `validar_regras` is a pure function of its
inputs and its rules are independent and additive: a numeric
temperature `t` produces exactly one temperature-range warning, and
does so exactly when `t` lies outside `[30, 43]`; a nonempty CPF whose
digit count is 9 produces exactly one CPF-length warning; and when
both conditions hold, both warnings appear, temperature first. -/
theorem C7_rules_engine_determinism :
    (∀ t : Int,
      validar_regras "ENCAMINHAMENTO" [] [("sinais_vitais", .obj [("temp", .int t)])] =
        .ok (if t < 30 ∨ t > 43
          then ["Temperatura fora de faixa plausível (30–43 °C)."] else []))
  ∧ (∀ s : String, s ≠ "" → (digitsOnly s).length = 9 →
      validar_regras "ENCAMINHAMENTO" [] [("identificacao", .obj [("cpf", .str s)])] =
        .ok ["CPF com formato/quantidade de dígitos inválido (esperado: 11)."])
  ∧ validar_regras "ENCAMINHAMENTO" []
      [("sinais_vitais", .obj [("temp", .int 45)]),
       ("identificacao", .obj [("cpf", .str "123456789")])] =
      .ok ["Temperatura fora de faixa plausível (30–43 °C).",
        "CPF com formato/quantidade de dígitos inválido (esperado: 11)."] := by
  refine ⟨?_, ?_, rfl⟩
  · intro t
    have hred : validar_regras "ENCAMINHAMENTO" []
        [("sinais_vitais", .obj [("temp", .int t)])] =
        .ok (((tempAlerts [("temp", .int t)] ++ []) ++ []) ++ []) := rfl
    rw [hred]
    have htemp : tempAlerts [("temp", .int t)] =
        if (t : Rat) < 30 ∨ (t : Rat) > 43
          then ["Temperatura fora de faixa plausível (30–43 °C)."] else [] := rfl
    rw [htemp]
    simp only [List.append_nil]
    have hiff : ((t : Rat) < 30 ∨ (t : Rat) > 43) ↔ (t < 30 ∨ t > 43) := by
      constructor
      · rintro (h | h)
        · left; exact_mod_cast h
        · right; exact_mod_cast h
      · rintro (h | h)
        · left; exact_mod_cast h
        · right; exact_mod_cast h
    rw [if_congr hiff rfl rfl]
  · intro s hs h9
    have htr : truthy (.str s) = true := by simp [truthy, hs]
    unfold validar_regras
    rw [show getDictOr [("identificacao", JVal.obj [("cpf", JVal.str s)])] "sinais_vitais" =
      some [] from rfl]
    simp only [Bind.bind, Except.bind]
    rw [show pyOr (pyOr (dictGet [] "identificacao")
        (dictGet [("identificacao", JVal.obj [("cpf", JVal.str s)])] "identificacao"))
        (JVal.obj []) = JVal.obj [("cpf", JVal.str s)] from rfl]
    dsimp only
    rw [show pyOr (dictGet [("cpf", JVal.str s)] "cpf") (JVal.str "") = JVal.str s by
      simp [pyOr, dictGet, pyLookup, htr]]
    rw [show idAlerts (JVal.str s) 11
        "CPF com formato/quantidade de dígitos inválido (esperado: 11)." =
        Except.ok ["CPF com formato/quantidade de dígitos inválido (esperado: 11)."] by
      simp [idAlerts, htr, digitsOfV, h9, Bind.bind, Except.bind, pure, Except.pure]]
    dsimp only
    rw [show idAlerts (pyOr (dictGet [("cpf", JVal.str s)] "cns") (JVal.str "")) 15
        "CNS com formato/quantidade de dígitos inválido (esperado: 15)." =
        Except.ok [] from rfl]
    dsimp only
    rfl

/-- Witness for `C7_rules_engine_determinism` at concrete inputs:
temperature 45 yields exactly the temperature warning; the 9-digit CPF
`"123456789"` yields exactly the CPF warning. -/
theorem C7_rules_engine_determinism_witness :
    validar_regras "ENCAMINHAMENTO" [] [("sinais_vitais", .obj [("temp", .int 45)])] =
      .ok ["Temperatura fora de faixa plausível (30–43 °C)."]
  ∧ validar_regras "ENCAMINHAMENTO" [] [("identificacao", .obj [("cpf", .str "123456789")])] =
      .ok ["CPF com formato/quantidade de dígitos inválido (esperado: 11)."] := by
  constructor
  · have h := C7_rules_engine_determinism.1 45
    norm_num at h
    exact h
  · exact C7_rules_engine_determinism.2.1 "123456789" (by decide) (by decide)



/-- C8 (amended): for an ATESTADO request whose payload contains
neither `cid` nor `dias_afastamento`, the fallback produces
`dias_afastamento = 3` and `cid = "não informado"`, but the rules
engine run on that final output does **not** emit the missing-CID
warning — the truthy placeholder masks the original absence (the
source's documented behaviour: the rule inspects the final output).
In general the missing-CID warning appears in the rules engine's
output exactly when the final output's `cid` is falsy.  (The claim as
frozen asserted the warning is emitted; refuted by
`C8_counterexample`.) -/
theorem C8_atestado_placeholder_masks_cid (saida entrada : JDict) (alerts : List String)
    (h : validar_regras "ATESTADO" saida entrada = .ok alerts) :
    (((fallback_rule_based "ATESTADO" []).toOption.bind fun p =>
        objLookup p.2 "dias_afastamento") = some (.int 3)
      ∧ ((fallback_rule_based "ATESTADO" []).toOption.bind fun p =>
          objLookup p.2 "cid") = some (.str "não informado"))
  ∧ (("Atestado sem CID informado." ∈ alerts) ↔ truthy (dictGet saida "cid") = false) :=
  ⟨⟨rfl, rfl⟩, validar_regras_atestado_cid saida entrada alerts h⟩

/-- Witness for `C8_atestado_placeholder_masks_cid`, applied to the
very output the fallback produces for the empty ATESTADO payload: the
rules engine returns no alerts at all, and in particular no
missing-CID warning, because the placeholder `"não informado"` is
truthy. -/
theorem C8_atestado_placeholder_masks_cid_witness :
    ("Atestado sem CID informado." ∈ ([] : List String)) ↔
      truthy (dictGet [("texto", .str "Atesto para fins legais que Paciente (CPF não informado, CNS não informado) foi avaliado(a) nesta unidade em não informado. Condição compatível com CID não informado, com necessidade de afastamento por 3 dia(s)."), ("cid", .str "não informado"), ("dias_afastamento", .int 3), ("identificacao", .obj [("nome", .str "Paciente"), ("cpf", .str ""), ("cns", .str "")])] "cid") = false :=
  (C8_atestado_placeholder_masks_cid
    [("texto", .str "Atesto para fins legais que Paciente (CPF não informado, CNS não informado) foi avaliado(a) nesta unidade em não informado. Condição compatível com CID não informado, com necessidade de afastamento por 3 dia(s)."), ("cid", .str "não informado"), ("dias_afastamento", .int 3), ("identificacao", .obj [("nome", .str "Paciente"), ("cpf", .str ""), ("cns", .str "")])]
    [] [] rfl).2

/-- C8 counterexample: running the rules engine on the fallback's own
ATESTADO output (empty payload: `cid = "não informado"`,
`dias_afastamento = 3`) yields the empty alert list — no "missing CID"
warning is emitted, refuting the claim's final clause. -/
theorem C8_counterexample :
    ((fallback_rule_based "ATESTADO" []).toOption.bind fun p =>
      match p.2 with
      | .obj fs => (validar_regras "ATESTADO" fs []).toOption
      | _ => none) = some [] := rfl

/-- C9 (amended): every structured result returned by `processar`
embeds a `_meta` sub-object containing exactly the generation
timestamp (`gerado_em`) and the resolved document type
(`tipo_documento`); the provider name is **not** part of it (in the
newer `LLMClient` path the provider name is a top-level field of the
result dict, not embedded metadata).  (The claim as frozen also
required the provider name inside the metadata; refuted by
`C9_counterexample`.) -/
theorem C9_meta_timestamp_and_type (g : String → JDict → String × JVal)
    (now : String) (payload : JDict) (t : String) (r : PipeResult)
    (ht : resolveTipo payload = .ok t) (hr : processar g now payload = .ok r) :
    objLookup r.json "_meta" =
      some (.obj [("gerado_em", .str now), ("tipo_documento", .str t)]) :=
  processar_ok_meta g now payload t r ht hr

/-- Witness for `C9_meta_timestamp_and_type` on a concrete run (valid
provider SOAP output, so no repair): the returned JSON's `_meta` holds
the timestamp and the resolved type. -/
theorem C9_meta_timestamp_and_type_witness :
    objLookup (PipeResult.json ⟨"t",
      .obj [("S", .str "s"), ("O", .str "o"), ("A", .arr []), ("P", .arr []),
        ("_meta", .obj [("gerado_em", .str "2026-01-01T00:00:00"),
          ("tipo_documento", .str "SOAP")])], []⟩) "_meta" =
      some (.obj [("gerado_em", .str "2026-01-01T00:00:00"),
        ("tipo_documento", .str "SOAP")]) :=
  C9_meta_timestamp_and_type
    (fun _ _ => ("t", .obj [("S", .str "s"), ("O", .str "o"), ("A", .arr []), ("P", .arr [])]))
    "2026-01-01T00:00:00" [("tipo_documento", .str "SOAP")] "SOAP"
    ⟨"t", .obj [("S", .str "s"), ("O", .str "o"), ("A", .arr []), ("P", .arr []),
      ("_meta", .obj [("gerado_em", .str "2026-01-01T00:00:00"),
        ("tipo_documento", .str "SOAP")])], []⟩
    rfl rfl

/-- C9 counterexample: on a concrete successful run, the embedded
`_meta` sub-object exists but contains no `provider` entry — the
generation metadata does not include the provider name, refuting the
claim as frozen. -/
theorem C9_counterexample :
    (match processar
        (fun _ _ => ("t", .obj [("S", .str "s"), ("O", .str "o"), ("A", .arr []), ("P", .arr [])]))
        "2026-01-01T00:00:00" [("tipo_documento", .str "SOAP")] with
     | .ok r => ((objLookup r.json "_meta").bind fun meta => objLookup meta "provider")
     | .error _ => some .null) = none
  ∧ (match processar
        (fun _ _ => ("t", .obj [("S", .str "s"), ("O", .str "o"), ("A", .arr []), ("P", .arr [])]))
        "2026-01-01T00:00:00" [("tipo_documento", .str "SOAP")] with
     | .ok r => (objLookup r.json "_meta").isSome
     | .error _ => false) = true :=
  ⟨rfl, rfl⟩



/-- C10 (implicit claim): the public document-type check is lenient —
a falsy `tipo_documento` (absent, `None`, the empty string, any falsy
value) is silently resolved to `"SOAP"` and `processar` proceeds as a
SOAP request (the embedded metadata records type `"SOAP"`); a
supplied nonempty type string is upper-cased before lookup, both in
`processar` and in `get_schema`, so lowercase spellings of the five
recognized kinds are accepted rather than rejected as unsupported. -/
theorem C10_lenient_type_resolution :
    (∀ (payload : JDict) (g : String → JDict → String × JVal) (now : String),
      truthy (dictGet payload "tipo_documento") = false →
      resolveTipo payload = .ok "SOAP"
      ∧ ∀ r, processar g now payload = .ok r →
          objLookup r.json "_meta" =
            some (.obj [("gerado_em", .str now), ("tipo_documento", .str "SOAP")]))
  ∧ (∀ s : String, s ≠ "" →
      resolveTipo [("tipo_documento", .str s)] = .ok (pyUpper s))
  ∧ (∀ s : String, listLookup SCHEMA_MAP (pyUpper s) ≠ none →
      (get_schema s).isOk = true
      ∧ ∀ (g : String → JDict → String × JVal) (now m : String),
          processar g now [("tipo_documento", .str s)] ≠ .error (.unsupportedType m)) := by
  have hres : ∀ payload : JDict, truthy (dictGet payload "tipo_documento") = false →
      resolveTipo payload = .ok "SOAP" := by
    intro payload h
    unfold resolveTipo
    rw [show pyOr (dictGet payload "tipo_documento") (.str "SOAP") = .str "SOAP" by
      simp [pyOr, h]]
    rfl
  have hres2 : ∀ s : String, s ≠ "" →
      resolveTipo [("tipo_documento", .str s)] = .ok (pyUpper s) := by
    intro s hs
    unfold resolveTipo
    rw [show pyOr (dictGet [("tipo_documento", JVal.str s)] "tipo_documento") (.str "SOAP") =
      .str s by simp [pyOr, dictGet, pyLookup, truthy, hs]]
  refine ⟨?_, hres2, ?_⟩
  · intro payload g now h
    refine ⟨hres payload h, ?_⟩
    intro r hr
    exact processar_ok_meta g now payload "SOAP" r (hres payload h) hr
  · intro s hlk
    have hs : s ≠ "" := by
      intro hcon
      subst hcon
      exact hlk rfl
    obtain ⟨schema, hschema⟩ : ∃ schema, listLookup SCHEMA_MAP (pyUpper s) = some schema := by
      cases hl : listLookup SCHEMA_MAP (pyUpper s) with
      | none => exact absurd hl hlk
      | some sch => exact ⟨sch, rfl⟩
    constructor
    · unfold get_schema
      dsimp only
      rw [hschema]
      rfl
    · intro g now m
      exact processar_ne_unsup g now [("tipo_documento", .str s)] (pyUpper s) schema
        (hres2 s hs) hschema m

/-- Witness for `C10_lenient_type_resolution` at concrete inputs: a
`None` type resolves to SOAP and a SOAP run records it in `_meta`; the
lowercase `"parecer"` is upper-cased; `"laudo"` is accepted by
`get_schema` and never rejected by `processar` as unsupported. -/
theorem C10_lenient_type_resolution_witness :
    resolveTipo [("tipo_documento", JVal.null)] = .ok "SOAP"
  ∧ resolveTipo [("tipo_documento", .str "parecer")] = .ok (pyUpper "parecer")
  ∧ (get_schema "laudo").isOk = true
  ∧ processar (fun _ _ => ("", .obj [])) "2026-01-01T00:00:00"
      [("tipo_documento", .str "laudo")] ≠ .error (.unsupportedType "LAUDO") :=
  ⟨(C10_lenient_type_resolution.1 [("tipo_documento", JVal.null)]
      (fun _ _ => ("", .obj [])) "2026-01-01T00:00:00" rfl).1,
   C10_lenient_type_resolution.2.1 "parecer" (by decide),
   (C10_lenient_type_resolution.2.2 "laudo" (by
      intro h
      have hx : listLookup SCHEMA_MAP (pyUpper "laudo") = some LAUDO_SCHEMA := rfl
      exact Option.noConfusion (hx.symm.trans h))).1,
   (C10_lenient_type_resolution.2.2 "laudo" (by
      intro h
      have hx : listLookup SCHEMA_MAP (pyUpper "laudo") = some LAUDO_SCHEMA := rfl
      exact Option.noConfusion (hx.symm.trans h))).2
     (fun _ _ => ("", .obj [])) "2026-01-01T00:00:00" "LAUDO"⟩


end AEM
